import Mathlib

/-!
Verification of the order–payment state machine of the daadis server
(`src/src/services/payment.service.ts`).  The orchestrator functions are
translated directly from the TypeScript source.  The payment and order
repositories and the razorpay adapter are not part of the provided sources,
so their operations are modelled from the specification (§4.1–§4.3): each
is a pure transformation of an explicit database state.  Gateway outcomes
(remote order creation, signature verification) are passed in as data.
-/

namespace DaadisPay

/-- Order record of the order ledger.  Fields follow the spec's data model
(§3) and the fields accessed by `payment.service.ts`.  Statuses are kept as
strings, exactly as in the source. -/
structure Order where
  _id : String
  orderNumber : String
  userId : Option String
  sessionId : Option String
  totalAmount : Nat
  status : String
  paymentStatus : String
  paymentId : Option Nat
deriving DecidableEq, Repr

/-- Payment record of the payment ledger, with the fields created and read
by `payment.service.ts` (§3 of the spec). -/
structure Payment where
  _id : Nat
  orderId : String
  orderNumber : String
  userId : Option String
  sessionId : Option String
  provider : String
  amount : Nat
  method : Option String
  status : String
  razorpayOrderId : Option String
  transactionId : Option String
  gatewayTransactionId : Option String
  checkoutId : Option String
  checkoutUrl : Option String
  refundAmount : Option Nat
  refundTransactionId : Option String
  errorCode : Option String
  errorMessage : Option String
  failureReason : Option String
deriving DecidableEq, Repr

/-- The persistent state the orchestrator acts on: the two ledgers, a
counter generating fresh payment ids, and a counter of calls made to the
gateway adapter's create-order operation. -/
structure DB where
  orders : List Order
  payments : List Payment
  nextPaymentId : Nat
  gatewayCreateCalls : Nat
deriving DecidableEq, Repr

/-- The typed failures thrown by the service: `NotFoundError`,
`BadRequestError` and `InternalServerError` with their messages. -/
inductive PayError where
  | notFoundError (msg : String)
  | badRequestError (msg : String)
  | internalServerError (msg : String)
deriving DecidableEq, Repr

/-! ## Ledger operations (modelled from the spec)

The repository classes (`PaymentRepository`, `OrderRepository`) are not in
the provided sources; the operations below are modelled from spec §4.2 and
§4.3. -/

/-- Update every payment whose `_id` matches (ids are unique in any
well-formed state, §3). -/
def setPayment (l : List Payment) (pid : Nat) (f : Payment → Payment) : List Payment :=
  l.map (fun q => if q._id = pid then f q else q)

/-- Update every order whose `_id` matches. -/
def setOrder (l : List Order) (oid : String) (f : Order → Order) : List Order :=
  l.map (fun o => if o._id = oid then f o else o)

/-- Modelled from the spec: `PaymentRepository.getPaymentById` (§4.2 lookup
by payment id, at most one record). -/
def getPaymentById (db : DB) (paymentId : Nat) : Option Payment :=
  db.payments.find? (fun p => decide (p._id = paymentId))

/-- Modelled from the spec: `PaymentRepository.getPaymentByOrderId` (§4.2
lookup by order id). -/
def getPaymentByOrderId (db : DB) (orderId : String) : Option Payment :=
  db.payments.find? (fun p => decide (p.orderId = orderId))

/-- Modelled from the spec: `PaymentRepository.getPaymentByRazorpayOrderId`
(§4.2 lookup by gateway order id). -/
def getPaymentByRazorpayOrderId (db : DB) (rid : String) : Option Payment :=
  db.payments.find? (fun p => decide (p.razorpayOrderId = some rid))

/-- Modelled from the spec: `PaymentRepository.getPaymentByCheckoutId`
(§4.2 lookup by checkout id). -/
def getPaymentByCheckoutId (db : DB) (cid : String) : Option Payment :=
  db.payments.find? (fun p => decide (p.checkoutId = some cid))

/-- Modelled from the spec: `PaymentRepository.getPaymentByTransactionId`
(§4.2 lookup by transaction id). -/
def getPaymentByTransactionId (db : DB) (tid : String) : Option Payment :=
  db.payments.find? (fun p => decide (p.transactionId = some tid))

/-- Modelled from the spec: `OrderRepository.getOrderById` (§4.3 `getById`). -/
def getOrderById (db : DB) (orderId : String) : Option Order :=
  db.orders.find? (fun o => decide (o._id = orderId))

/-- Modelled from the spec: `OrderRepository.getOrderByOrderNumber` (§4.3
`getByOrderNumber`). -/
def getOrderByOrderNumber (db : DB) (n : String) : Option Order :=
  db.orders.find? (fun o => decide (o.orderNumber = n))

/-- Modelled from the spec: `OrderRepository.updateStatus({orderId, status,
paymentStatus})`, an atomic compound write (§4.3). -/
def updateOrderStatus (db : DB) (orderId status paymentStatus : String) : DB :=
  { db with orders := (setOrder db.orders orderId
      (fun o => { o with status := status, paymentStatus := paymentStatus })) }

/-- Modelled from the spec: `OrderRepository.updateOrderPaymentId`
(`linkPaymentId`, §4.3). -/
def updateOrderPaymentId (db : DB) (orderId : String) (paymentId : Nat) : DB :=
  { db with orders := (setOrder db.orders orderId
      (fun o => { o with paymentId := some paymentId })) }

/-- The record produced by the ledger's `markCompleted` (§4.2): sets status
`completed`, stores the transaction id, gateway transaction id and method;
no-op if the payment is already `completed` (idempotent). -/
def completedPayment (p : Payment) (txn : String)
    (gwTxn : Option String) (m : Option String) : Payment :=
  if p.status = "completed" then p
  else { p with
         status := "completed",
         transactionId := some txn,
         gatewayTransactionId := gwTxn,
         method := (match m with | some s => some s | none => p.method) }

/-- Modelled from the spec: `PaymentRepository.markPaymentCompleted`
(`markCompleted`, §4.2). -/
def markPaymentCompleted (db : DB) (pid : Nat) (txn : String)
    (gwTxn : Option String) (m : Option String) : DB :=
  { db with payments := (setPayment db.payments pid
      (fun p => completedPayment p txn gwTxn m)) }

/-- The record produced by the ledger's `markFailed` (§4.2): sets status
`failed` and stores the structured failure metadata. -/
def failedPayment (p : Payment) (code msg reason : Option String) : Payment :=
  { p with
    status := "failed",
    errorCode := code,
    errorMessage := msg,
    failureReason := reason }

/-- Modelled from the spec: `PaymentRepository.markPaymentFailed`
(`markFailed`, §4.2). -/
def markPaymentFailed (db : DB) (pid : Nat) (code msg reason : Option String) : DB :=
  { db with payments := (setPayment db.payments pid
      (fun p => failedPayment p code msg reason)) }

/-- Modelled from the spec: `PaymentRepository.updatePaymentStatus`, the
status write used by `retryPayment` to reset a payment to `pending`
(§4.2 `resetToPending`, §4.4 "Resets payment to pending"). -/
def updatePaymentStatus (db : DB) (pid : Nat) (status : String) : DB :=
  { db with payments := (setPayment db.payments pid
      (fun p => { p with status := status })) }

/-- The record produced by the ledger's `initiateRefund` (§4.2): sets
status `refunded` and records the refund amount and transaction id. -/
def refundedPayment (p : Payment) (amt : Nat) (rtx : Option String) : Payment :=
  { p with
    status := "refunded",
    refundAmount := some amt,
    refundTransactionId := rtx }

/-- Modelled from the spec: `PaymentRepository.initiateRefund` (§4.2). -/
def repoInitiateRefund (db : DB) (pid : Nat) (amt : Nat) (rtx : Option String) : DB :=
  { db with payments := (setPayment db.payments pid
      (fun p => refundedPayment p amt rtx)) }

/-- Modelled from the spec: `PaymentRepository.updatePayment` with a
`razorpayOrderId` field (`setGatewayOrderId`, §4.2). -/
def updatePaymentRazorpayOrderId (db : DB) (pid : Nat) (rid : Option String) : DB :=
  { db with payments := (setPayment db.payments pid
      (fun p => { p with razorpayOrderId := rid })) }

/-- Modelled from the spec: the configured gateway key id
(`config.RAZORPAY_KEY_ID`), an opaque configuration constant. -/
def razorpayKeyId : String := "RAZORPAY_KEY_ID"

/-- JavaScript string truthiness for optional event fields: present and
non-empty. -/
def truthy : Option String → Bool
  | some s => decide (s ≠ "")
  | none => false

/-! ## The payment orchestrator (`PaymentService`, payment.service.ts)

Each `async` method becomes a function `... → DB → Except PayError α × DB`.
A thrown error is an `Except.error` paired with the state at the moment of
the throw (mutations made before the throw are kept, as in the source,
which has no transactional rollback). -/

/-- Arguments of `PaymentService.createPayment` (payment.service.ts:15-25). -/
structure CreatePaymentParams where
  orderId : String
  orderNumber : String
  userId : Option String
  sessionId : Option String
  provider : String
  amount : Nat
  method : Option String
  status : Option String
  razorpayOrderId : Option String
deriving DecidableEq, Repr

/-- The fresh `pending` payment row inserted by the ledger's `create`
(§4.2): only the fields passed by `createPayment` are populated. -/
def newPaymentRow (params : CreatePaymentParams) (n : Nat) : Payment :=
  { _id := n,
    orderId := params.orderId,
    orderNumber := params.orderNumber,
    userId := params.userId,
    sessionId := params.sessionId,
    provider := params.provider,
    amount := params.amount,
    method := params.method,
    status := "pending",
    razorpayOrderId := none,
    transactionId := none,
    gatewayTransactionId := none,
    checkoutId := none,
    checkoutUrl := none,
    refundAmount := none,
    refundTransactionId := none,
    errorCode := none,
    errorMessage := none,
    failureReason := none }

/-- `PaymentService.createPayment` (payment.service.ts:15-58): creates a
`pending` payment row, optionally stamps the gateway order id, marks it
completed right away when `status` is `completed` (COD, with transaction id
`cod_` + payment id), and links the payment onto the order.  Returns the
originally created record, as the source does. -/
def createPayment (params : CreatePaymentParams) (db : DB) : Payment × DB :=
  let payment : Payment := newPaymentRow params db.nextPaymentId
  let db := { db with
              payments := db.payments ++ [payment],
              nextPaymentId := db.nextPaymentId + 1 }
  let db := if truthy params.razorpayOrderId then
      updatePaymentRazorpayOrderId db payment._id params.razorpayOrderId
    else db
  let db := if params.status = some "completed" then
      markPaymentCompleted db payment._id ("cod_" ++ toString payment._id)
        none (some "cod")
    else db
  let db := updateOrderPaymentId db params.orderId payment._id
  (payment, db)

/-- `PaymentService.processCodPayment` (payment.service.ts:64-96). -/
def processCodPayment (orderId : String) (db : DB) :
    Except PayError Payment × DB :=
  match getOrderById db orderId with
  | none => (Except.error (PayError.notFoundError "Order not found"), db)
  | some order =>
    match getPaymentByOrderId db orderId with
    | some _ =>
      (Except.error (PayError.badRequestError "Payment already exists for this order"), db)
    | none =>
      let pd := createPayment
        { orderId := order._id,
          orderNumber := order.orderNumber,
          userId := order.userId,
          sessionId := order.sessionId,
          provider := "cod",
          amount := order.totalAmount,
          method := some "cod",
          status := some "completed",
          razorpayOrderId := none } db
      let db := updateOrderStatus pd.2 order._id "confirmed" "completed"
      (Except.ok pd.1, db)

/-- The checkout parameters returned by `initiateRazorpayPayment`
(payment.service.ts:117-124 and 154-161). -/
structure RazorpayCheckout where
  paymentId : Nat
  razorpayOrderId : String
  razorpayKeyId : String
  amount : Nat
  currency : String
  orderNumber : String
deriving DecidableEq, Repr

/-- The `try` block of `initiateRazorpayPayment` (payment.service.ts:127-165):
the adapter call (its outcome passed in as `createOrderResult`, error value
carrying the raw transport detail), payment creation, order update.  Any
adapter error is re-thrown as `InternalServerError` with a fixed message. -/
def initiateRazorpayCreate (order : Order)
    (createOrderResult : Except String String) (db : DB) :
    Except PayError RazorpayCheckout × DB :=
  let db := { db with gatewayCreateCalls := db.gatewayCreateCalls + 1 }
  match createOrderResult with
  | Except.error _ =>
    (Except.error (PayError.internalServerError "Failed to initiate Razorpay payment"), db)
  | Except.ok razorpayOrderId =>
    let pd := createPayment
      { orderId := order._id,
        orderNumber := order.orderNumber,
        userId := order.userId,
        sessionId := order.sessionId,
        provider := "razorpay",
        amount := order.totalAmount,
        method := none,
        status := none,
        razorpayOrderId := some razorpayOrderId } db
    let db := updateOrderStatus pd.2 order._id "payment_pending" "pending"
    (Except.ok
      { paymentId := pd.1._id,
        razorpayOrderId := razorpayOrderId,
        razorpayKeyId := razorpayKeyId,
        amount := order.totalAmount * 100,
        currency := "INR",
        orderNumber := order.orderNumber }, db)

/-- `PaymentService.initiateRazorpayPayment` (payment.service.ts:106-166).
The gateway adapter's `createOrder` outcome is `createOrderResult`. -/
def initiateRazorpayPayment (orderId : String)
    (createOrderResult : Except String String) (db : DB) :
    Except PayError RazorpayCheckout × DB :=
  match getOrderById db orderId with
  | none => (Except.error (PayError.notFoundError "Order not found"), db)
  | some order =>
    match getPaymentByOrderId db orderId with
    | some payment =>
      match payment.razorpayOrderId with
      | some rid =>
        (Except.ok
          { paymentId := payment._id,
            razorpayOrderId := rid,
            razorpayKeyId := razorpayKeyId,
            amount := order.totalAmount * 100,
            currency := "INR",
            orderNumber := order.orderNumber }, db)
      | none => initiateRazorpayCreate order createOrderResult db
    | none => initiateRazorpayCreate order createOrderResult db

/-- Arguments of `verifyRazorpayPayment` (payment.service.ts:175-180). -/
structure VerifyParams where
  orderId : String
  razorpayOrderId : String
  razorpayPaymentId : String
  razorpaySignature : String
deriving DecidableEq, Repr

/-- `PaymentService.verifyRazorpayPayment` (payment.service.ts:175-220).
The adapter's signature-verification outcome is `sigValid`. -/
def verifyRazorpayPayment (params : VerifyParams) (sigValid : Bool) (db : DB) :
    Except PayError Payment × DB :=
  if !sigValid then
    (Except.error (PayError.badRequestError "Invalid payment signature"), db)
  else
    match getPaymentByRazorpayOrderId db params.razorpayOrderId with
    | none => (Except.error (PayError.notFoundError "Payment not found"), db)
    | some payment =>
      if payment.status = "completed" then (Except.ok payment, db)
      else
        let updatedPayment := completedPayment payment params.razorpayPaymentId
          (some params.razorpayOrderId) (some "razorpay")
        let db := markPaymentCompleted db payment._id params.razorpayPaymentId
          (some params.razorpayOrderId) (some "razorpay")
        let db := updateOrderStatus db payment.orderId "confirmed" "completed"
        (Except.ok updatedPayment, db)

/-- The payment-resolution cascade shared by `handlePaymentSuccess`
(payment.service.ts:231-242) and `handlePaymentFailure`
(payment.service.ts:281-292): checkout id if truthy, else order number
(via the order, then its payment), else transaction id; no fall-through. -/
def resolvePaymentByEvent (checkoutId orderNumber transactionId : Option String)
    (db : DB) : Option Payment :=
  if truthy checkoutId then
    getPaymentByCheckoutId db (checkoutId.getD "")
  else if truthy orderNumber then
    match getOrderByOrderNumber db (orderNumber.getD "") with
    | some order => getPaymentByOrderId db order._id
    | none => none
  else if truthy transactionId then
    getPaymentByTransactionId db (transactionId.getD "")
  else none

/-- Arguments of `handlePaymentSuccess` (payment.service.ts:222-230);
`transactionId` is a required string in the source. -/
structure SuccessParams where
  checkoutId : Option String
  transactionId : String
  gatewayTransactionId : Option String
  orderNumber : Option String
  method : Option String
  amount : Option Nat
deriving DecidableEq, Repr

/-- `PaymentService.handlePaymentSuccess` (payment.service.ts:222-270). -/
def handlePaymentSuccess (params : SuccessParams) (db : DB) :
    Except PayError Payment × DB :=
  match resolvePaymentByEvent params.checkoutId params.orderNumber
      (some params.transactionId) db with
  | none => (Except.error (PayError.notFoundError "Payment not found"), db)
  | some payment =>
    if payment.status = "completed" then (Except.ok payment, db)
    else
      let updatedPayment := completedPayment payment params.transactionId
        params.gatewayTransactionId params.method
      let db := markPaymentCompleted db payment._id params.transactionId
        params.gatewayTransactionId params.method
      let db := updateOrderStatus db payment.orderId "confirmed" "completed"
      (Except.ok updatedPayment, db)

/-- Arguments of `handlePaymentFailure` (payment.service.ts:272-280);
here `transactionId` is optional. -/
structure FailureParams where
  checkoutId : Option String
  transactionId : Option String
  orderNumber : Option String
  errorCode : Option String
  errorMessage : Option String
  failureReason : Option String
deriving DecidableEq, Repr

/-- `PaymentService.handlePaymentFailure` (payment.service.ts:272-315). -/
def handlePaymentFailure (params : FailureParams) (db : DB) :
    Except PayError Payment × DB :=
  match resolvePaymentByEvent params.checkoutId params.orderNumber
      params.transactionId db with
  | none => (Except.error (PayError.notFoundError "Payment not found"), db)
  | some payment =>
    let updatedPayment := failedPayment payment params.errorCode
      params.errorMessage params.failureReason
    let db := markPaymentFailed db payment._id params.errorCode
      params.errorMessage params.failureReason
    let db := updateOrderStatus db payment.orderId "payment_failed" "failed"
    (Except.ok updatedPayment, db)

/-- Arguments of `initiateRefund` (payment.service.ts:333-337). -/
structure RefundParams where
  paymentId : Nat
  refundAmount : Nat
  refundTransactionId : Option String
deriving DecidableEq, Repr

/-- `PaymentService.initiateRefund` (payment.service.ts:333-366). -/
def initiateRefund (params : RefundParams) (db : DB) :
    Except PayError Payment × DB :=
  match getPaymentById db params.paymentId with
  | none => (Except.error (PayError.notFoundError "Payment not found"), db)
  | some payment =>
    if payment.status ≠ "completed" then
      (Except.error (PayError.badRequestError "Can only refund completed payments"), db)
    else if payment.amount < params.refundAmount then
      (Except.error (PayError.badRequestError "Refund amount cannot exceed payment amount"), db)
    else
      let updatedPayment := refundedPayment payment params.refundAmount
        params.refundTransactionId
      let db := repoInitiateRefund db payment._id params.refundAmount
        params.refundTransactionId
      let db := updateOrderStatus db payment.orderId "refunded" "refunded"
      (Except.ok updatedPayment, db)

/-- The value returned by `retryPayment` on success
(payment.service.ts:386-389). -/
structure RetryResult where
  checkoutUrl : String
  paymentId : Nat
deriving DecidableEq, Repr

/-- `PaymentService.retryPayment` (payment.service.ts:368-393).  Note the
status reset happens before the checkout-URL check, so the
no-checkout-available error leaves the reset in place. -/
def retryPayment (orderId : String) (db : DB) :
    Except PayError RetryResult × DB :=
  match getPaymentByOrderId db orderId with
  | none => (Except.error (PayError.notFoundError "Payment not found"), db)
  | some payment =>
    if payment.status = "completed" then
      (Except.error (PayError.badRequestError "Payment already completed"), db)
    else
      let db := updatePaymentStatus db payment._id "pending"
      match payment.checkoutUrl with
      | some url => (Except.ok { checkoutUrl := url, paymentId := payment._id }, db)
      | none =>
        (Except.error (PayError.badRequestError "No checkout URL available for retry"), db)

/-! ## The state machine: sequences of orchestrator operations -/

/-- One inbound trigger of the orchestrator, with the gateway outcomes it
observes carried as data (§5: request-driven, each trigger handled
independently). -/
inductive Op where
  | processCod (orderId : String)
  | initiateGateway (orderId : String) (createOrderResult : Except String String)
  | verifyGateway (params : VerifyParams) (sigValid : Bool)
  | successEvent (params : SuccessParams)
  | failureEvent (params : FailureParams)
  | refund (params : RefundParams)
  | retry (orderId : String)
deriving Repr

/-- The state reached after one operation (whether it returned a value or
threw). -/
def applyOp (db : DB) : Op → DB
  | Op.processCod oid => (processCodPayment oid db).2
  | Op.initiateGateway oid res => (initiateRazorpayPayment oid res db).2
  | Op.verifyGateway params sv => (verifyRazorpayPayment params sv db).2
  | Op.successEvent params => (handlePaymentSuccess params db).2
  | Op.failureEvent params => (handlePaymentFailure params db).2
  | Op.refund params => (initiateRefund params db).2
  | Op.retry oid => (retryPayment oid db).2

/-- The state reached after a sequence of operations. -/
def runOps (db : DB) : List Op → DB
  | [] => db
  | op :: rest => runOps (applyOp db op) rest

/-- The cross-entity consistency relation between a payment and its order
(§3 invariant): `completed ↔ confirmed ∧ completed`; `failed ⇒
payment_failed`; `refunded ⇒ refunded`. -/
def payOrderConsistent (p : Payment) (o : Order) : Prop :=
  (p.status = "completed" ↔ (o.status = "confirmed" ∧ o.paymentStatus = "completed")) ∧
  (p.status = "failed" → o.status = "payment_failed") ∧
  (p.status = "refunded" → o.status = "refunded")

instance (p : Payment) (o : Order) : Decidable (payOrderConsistent p o) := by
  unfold payOrderConsistent; infer_instance

/-- Cross-entity consistency over the whole state: every payment is
consistent with its order. -/
def CrossInv (db : DB) : Prop :=
  ∀ p ∈ db.payments, ∀ o ∈ db.orders, p.orderId = o._id → payOrderConsistent p o

instance (db : DB) : Decidable (CrossInv db) := by
  unfold CrossInv; infer_instance

/-- Structural well-formedness from the data model (§3): payment ids are
unique and below the id counter, and each order has at most one payment
record. -/
def GoodDB (db : DB) : Prop :=
  CrossInv db ∧
  (∀ p ∈ db.payments, ∀ q ∈ db.payments, p.orderId = q.orderId → p = q) ∧
  (∀ p ∈ db.payments, ∀ q ∈ db.payments, p._id = q._id → p = q) ∧
  (∀ p ∈ db.payments, p._id < db.nextPaymentId)

instance (db : DB) : Decidable (GoodDB db) := by
  unfold GoodDB; infer_instance

/-- An operation is within the protocol's intended use when
`initiateGatewayPayment` is only invoked on an order whose existing
payment, if any, already carries a gateway order id (so no second payment
row can be created for the order). -/
def okOp (db : DB) : Op → Bool
  | Op.initiateGateway oid _ =>
    match getPaymentByOrderId db oid with
    | some p => p.razorpayOrderId.isSome
    | none => true
  | _ => true

/-- A run in which every operation is within the intended use at the state
where it executes. -/
def SafeRun (db : DB) : List Op → Bool
  | [] => true
  | op :: rest => okOp db op && SafeRun (applyOp db op) rest

/-! ## General lemmas about the list-backed ledgers -/

lemma map_id_of {α} {f : α → α} {l : List α} (h : ∀ a ∈ l, f a = a) :
    l.map f = l := by
  induction l with
  | nil => rfl
  | cons a t ih =>
    simp only [List.map_cons]
    rw [h a (List.mem_cons_self a t), ih (fun b hb => h b (List.mem_cons_of_mem a hb))]

lemma find?_map_comm {α} (g : α → α) (p : α → Bool) (l : List α)
    (h : ∀ a ∈ l, p (g a) = p a) : (l.map g).find? p = (l.find? p).map g := by
  induction l with
  | nil => rfl
  | cons a t ih =>
    have ha : p (g a) = p a := h a (List.mem_cons_self a t)
    cases hpa : p a with
    | true =>
      simp only [List.map_cons]
      rw [List.find?_cons_of_pos _ (by rw [ha, hpa]), List.find?_cons_of_pos _ hpa]
      rfl
    | false =>
      simp only [List.map_cons]
      rw [List.find?_cons_of_neg _ (by simp [ha, hpa]), List.find?_cons_of_neg _ (by simp [hpa])]
      exact ih (fun b hb => h b (List.mem_cons_of_mem a hb))

lemma find?_key_unique {α β} [DecidableEq β] (key : α → β) {l : List α} {p : α}
    (huniq : ∀ a ∈ l, ∀ b ∈ l, key a = key b → a = b) (hp : p ∈ l) :
    l.find? (fun q => decide (key q = key p)) = some p := by
  induction l with
  | nil => cases hp
  | cons a t ih =>
    by_cases hk : key a = key p
    · rw [List.find?_cons_of_pos _ (by simpa using hk)]
      rcases List.mem_cons.mp hp with h | h
      · rw [h]
      · exact congrArg some (huniq a (List.mem_cons_self a t) p (List.mem_cons_of_mem a h) hk)
    · rw [List.find?_cons_of_neg _ (by simpa using hk)]
      rcases List.mem_cons.mp hp with h | h
      · exact absurd (congrArg key h.symm) hk
      · exact ih (fun x hx y hy => huniq x (List.mem_cons_of_mem a hx) y (List.mem_cons_of_mem a hy)) h

lemma setPayment_absent {l : List Payment} {pid : Nat} {f : Payment → Payment}
    (h : ∀ q ∈ l, q._id ≠ pid) : setPayment l pid f = l :=
  map_id_of (fun q hq => if_neg (h q hq))

lemma setPayment_append_fresh {l : List Payment} {newP : Payment} {f : Payment → Payment}
    {pid : Nat} (hpid : newP._id = pid) (h : ∀ q ∈ l, q._id ≠ pid) :
    setPayment (l ++ [newP]) pid f = l ++ [f newP] := by
  unfold setPayment
  rw [List.map_append, map_id_of (fun q hq => if_neg (h q hq))]
  simp [hpid]

lemma setOrder_setOrder {l : List Order} {oid : String} {g1 g2 : Order → Order}
    (hg1 : ∀ o, (g1 o)._id = o._id) :
    setOrder (setOrder l oid g1) oid g2 =
      l.map (fun o => if o._id = oid then g2 (g1 o) else o) := by
  unfold setOrder
  rw [List.map_map]
  apply List.map_congr_left
  intro o _
  by_cases h : o._id = oid
  · simp [h, hg1]
  · simp [h]

lemma mem_setPayment {l : List Payment} {pid : Nat} {f : Payment → Payment} {p' : Payment}
    (h : p' ∈ setPayment l pid f) :
    ∃ p ∈ l, p' = if p._id = pid then f p else p := by
  rcases List.mem_map.mp h with ⟨p, hp, hfp⟩
  exact ⟨p, hp, hfp.symm⟩

lemma mem_setOrder {l : List Order} {oid : String} {f : Order → Order} {o' : Order}
    (h : o' ∈ setOrder l oid f) :
    ∃ o ∈ l, o' = if o._id = oid then f o else o := by
  rcases List.mem_map.mp h with ⟨o, ho, hfo⟩
  exact ⟨o, ho, hfo.symm⟩

/-! Field-preservation facts about the ledger record transformers. -/

lemma completedPayment_id (p : Payment) (txn gwTxn m) :
    (completedPayment p txn gwTxn m)._id = p._id := by
  unfold completedPayment; split <;> rfl

lemma completedPayment_orderId (p : Payment) (txn gwTxn m) :
    (completedPayment p txn gwTxn m).orderId = p.orderId := by
  unfold completedPayment; split <;> rfl

lemma completedPayment_status (p : Payment) (txn gwTxn m) :
    (completedPayment p txn gwTxn m).status = "completed" := by
  unfold completedPayment
  split
  · assumption
  · rfl

lemma completedPayment_checkoutId (p : Payment) (txn gwTxn m) :
    (completedPayment p txn gwTxn m).checkoutId = p.checkoutId := by
  unfold completedPayment; split <;> rfl

lemma completedPayment_transactionId (p : Payment) (txn gwTxn m) :
    (completedPayment p txn gwTxn m).transactionId =
      if p.status = "completed" then p.transactionId else some txn := by
  unfold completedPayment; split <;> simp_all

lemma failedPayment_id (p : Payment) (c m r) : (failedPayment p c m r)._id = p._id := rfl

lemma failedPayment_orderId (p : Payment) (c m r) :
    (failedPayment p c m r).orderId = p.orderId := rfl

lemma refundedPayment_id (p : Payment) (a r) : (refundedPayment p a r)._id = p._id := rfl

lemma refundedPayment_orderId (p : Payment) (a r) :
    (refundedPayment p a r).orderId = p.orderId := rfl

/-- A payment produced by any of the event resolution strategies is a
record of the payment ledger. -/
lemma resolve_mem {cid onum tid : Option String} {db : DB} {p : Payment}
    (h : resolvePaymentByEvent cid onum tid db = some p) : p ∈ db.payments := by
  unfold resolvePaymentByEvent at h
  split at h
  · exact List.mem_of_find?_eq_some h
  · split at h
    · split at h
      · exact List.mem_of_find?_eq_some h
      · cases h
    · split at h
      · exact List.mem_of_find?_eq_some h
      · cases h

instance {ε α : Type} [DecidableEq ε] [DecidableEq α] : DecidableEq (Except ε α) := fun x y =>
  match x, y with
  | Except.ok a, Except.ok b =>
    if h : a = b then Decidable.isTrue (by rw [h]) else Decidable.isFalse (by simp [h])
  | Except.error a, Except.error b =>
    if h : a = b then Decidable.isTrue (by rw [h]) else Decidable.isFalse (by simp [h])
  | Except.ok _, Except.error _ => Decidable.isFalse (by simp)
  | Except.error _, Except.ok _ => Decidable.isFalse (by simp)

/-! Key facts extracted from successful lookups. -/

lemma getPaymentById_some {db : DB} {x : Nat} {p : Payment}
    (h : getPaymentById db x = some p) : p ∈ db.payments ∧ p._id = x := by
  unfold getPaymentById at h
  exact ⟨List.mem_of_find?_eq_some h, by simpa using List.find?_some h⟩

lemma getPaymentByOrderId_some {db : DB} {x : String} {p : Payment}
    (h : getPaymentByOrderId db x = some p) : p ∈ db.payments ∧ p.orderId = x := by
  unfold getPaymentByOrderId at h
  exact ⟨List.mem_of_find?_eq_some h, by simpa using List.find?_some h⟩

lemma getOrderById_some {db : DB} {x : String} {o : Order}
    (h : getOrderById db x = some o) : o ∈ db.orders ∧ o._id = x := by
  unfold getOrderById at h
  exact ⟨List.mem_of_find?_eq_some h, by simpa using List.find?_some h⟩

lemma getOrderByOrderNumber_some {db : DB} {x : String} {o : Order}
    (h : getOrderByOrderNumber db x = some o) : o ∈ db.orders ∧ o.orderNumber = x := by
  unfold getOrderByOrderNumber at h
  exact ⟨List.mem_of_find?_eq_some h, by simpa using List.find?_some h⟩

lemma getPaymentByRazorpayOrderId_some {db : DB} {x : String} {p : Payment}
    (h : getPaymentByRazorpayOrderId db x = some p) :
    p ∈ db.payments ∧ p.razorpayOrderId = some x := by
  unfold getPaymentByRazorpayOrderId at h
  exact ⟨List.mem_of_find?_eq_some h, by simpa using List.find?_some h⟩

/-! Lookups after a ledger update, expressed over the pre-update state. -/

lemma getOrderById_updateOrderStatus (db : DB) (oid st ps x : String) :
    getOrderById (updateOrderStatus db oid st ps) x =
      (getOrderById db x).map
        (fun o => if o._id = oid then { o with status := st, paymentStatus := ps } else o) := by
  unfold getOrderById updateOrderStatus setOrder
  simp only
  exact find?_map_comm _ _ _ (fun o _ => by by_cases h : o._id = oid <;> simp [h])

lemma getOrderById_updateOrderPaymentId (db : DB) (oid : String) (pid : Nat) (x : String) :
    getOrderById (updateOrderPaymentId db oid pid) x =
      (getOrderById db x).map
        (fun o => if o._id = oid then { o with paymentId := some pid } else o) := by
  unfold getOrderById updateOrderPaymentId setOrder
  simp only
  exact find?_map_comm _ _ _ (fun o _ => by by_cases h : o._id = oid <;> simp [h])

lemma getPaymentById_repoInitiateRefund (db : DB) (pid : Nat) (amt : Nat)
    (rtx : Option String) (x : Nat) :
    getPaymentById (repoInitiateRefund db pid amt rtx) x =
      (getPaymentById db x).map
        (fun q => if q._id = pid then refundedPayment q amt rtx else q) := by
  unfold getPaymentById repoInitiateRefund setPayment
  simp only
  exact find?_map_comm _ _ _
    (fun a _ => by by_cases h : a._id = pid <;> simp [h, refundedPayment])

lemma getPaymentById_updateOrderStatus (db : DB) (oid st ps : String) (x : Nat) :
    getPaymentById (updateOrderStatus db oid st ps) x = getPaymentById db x := rfl

lemma getPaymentByOrderId_updateOrderStatus (db : DB) (oid st ps x : String) :
    getPaymentByOrderId (updateOrderStatus db oid st ps) x = getPaymentByOrderId db x := rfl

lemma getPaymentByOrderId_updateOrderPaymentId (db : DB) (oid : String) (pid : Nat)
    (x : String) :
    getPaymentByOrderId (updateOrderPaymentId db oid pid) x = getPaymentByOrderId db x := rfl

lemma getOrderById_markPaymentCompleted (db : DB) (pid : Nat) (txn : String)
    (gw m : Option String) (x : String) :
    getOrderById (markPaymentCompleted db pid txn gw m) x = getOrderById db x := rfl

lemma getOrderById_updatePaymentRazorpayOrderId (db : DB) (pid : Nat)
    (rid : Option String) (x : String) :
    getOrderById (updatePaymentRazorpayOrderId db pid rid) x = getOrderById db x := rfl

lemma getOrderById_appendPayments (db : DB) (l : List Payment) (n : Nat) (x : String) :
    getOrderById { db with payments := l, nextPaymentId := n } x = getOrderById db x := rfl

lemma getPaymentByOrderId_markPaymentCompleted (db : DB) (pid : Nat) (txn : String)
    (gw m : Option String) (x : String) :
    getPaymentByOrderId (markPaymentCompleted db pid txn gw m) x =
      (getPaymentByOrderId db x).map
        (fun q => if q._id = pid then completedPayment q txn gw m else q) := by
  unfold getPaymentByOrderId markPaymentCompleted setPayment
  simp only
  exact find?_map_comm _ _ _
    (fun a _ => by by_cases h : a._id = pid <;> simp [h, completedPayment_orderId])

lemma getPaymentByOrderId_updatePaymentRazorpayOrderId (db : DB) (pid : Nat)
    (rid : Option String) (x : String) :
    getPaymentByOrderId (updatePaymentRazorpayOrderId db pid rid) x =
      (getPaymentByOrderId db x).map
        (fun q => if q._id = pid then { q with razorpayOrderId := rid } else q) := by
  unfold getPaymentByOrderId updatePaymentRazorpayOrderId setPayment
  simp only
  exact find?_map_comm _ _ _ (fun a _ => by by_cases h : a._id = pid <;> simp [h])

lemma getPaymentByOrderId_appendDB (db : DB) (newP : Payment) (n : Nat) (x : String) :
    getPaymentByOrderId { db with payments := db.payments ++ [newP], nextPaymentId := n } x =
      (getPaymentByOrderId db x).or (if newP.orderId = x then some newP else none) := by
  unfold getPaymentByOrderId
  simp only
  rw [List.find?_append]
  congr 1
  by_cases h : newP.orderId = x
  · rw [List.find?_cons_of_pos _ (by simpa using h)]
    simp [h]
  · rw [List.find?_cons_of_neg _ (by simpa using h)]
    simp [h]

/-! Field facts about the fresh payment row. -/

lemma newPaymentRow_id (params : CreatePaymentParams) (n : Nat) :
    (newPaymentRow params n)._id = n := rfl

lemma newPaymentRow_orderId (params : CreatePaymentParams) (n : Nat) :
    (newPaymentRow params n).orderId = params.orderId := rfl

lemma newPaymentRow_status (params : CreatePaymentParams) (n : Nat) :
    (newPaymentRow params n).status = "pending" := rfl

lemma completedPayment_provider (p : Payment) (txn gwTxn m) :
    (completedPayment p txn gwTxn m).provider = p.provider := by
  unfold completedPayment; split <;> rfl

lemma completedPayment_amount (p : Payment) (txn gwTxn m) :
    (completedPayment p txn gwTxn m).amount = p.amount := by
  unfold completedPayment; split <;> rfl

lemma getPaymentById_of_mem {db : DB} {p : Payment}
    (hids : ∀ a ∈ db.payments, ∀ b ∈ db.payments, a._id = b._id → a = b)
    (hmem : p ∈ db.payments) : getPaymentById db p._id = some p :=
  find?_key_unique Payment._id hids hmem

lemma find?_id_map_ne (l : List Payment) (pid : Nat) (f : Payment → Payment)
    (hf : ∀ q, (f q)._id = q._id) (x : Nat) (hne : pid ≠ x) :
    (setPayment l pid f).find? (fun q => decide (q._id = x)) =
      l.find? (fun q => decide (q._id = x)) := by
  unfold setPayment
  rw [find?_map_comm _ _ _ (fun a _ => by by_cases h : a._id = pid <;> simp [h, hf])]
  cases hfind : l.find? (fun q => decide (q._id = x)) with
  | none => rfl
  | some a =>
    have hax : a._id = x := by simpa using List.find?_some hfind
    simp [show ¬ a._id = pid from by rw [hax]; exact fun hh => hne hh.symm]

lemma getPaymentById_markPaymentCompleted_ne (db : DB) (pid : Nat) (txn : String)
    (gw m : Option String) (x : Nat) (h : pid ≠ x) :
    getPaymentById (markPaymentCompleted db pid txn gw m) x = getPaymentById db x :=
  find?_id_map_ne db.payments pid _ (fun q => completedPayment_id q txn gw m) x h

lemma getPaymentById_updatePaymentStatus_ne (db : DB) (pid : Nat) (st : String)
    (x : Nat) (h : pid ≠ x) :
    getPaymentById (updatePaymentStatus db pid st) x = getPaymentById db x :=
  find?_id_map_ne db.payments pid (fun p => { p with status := st }) (fun _ => rfl) x h

lemma getPaymentById_updatePaymentRazorpayOrderId_ne (db : DB) (pid : Nat)
    (rid : Option String) (x : Nat) (h : pid ≠ x) :
    getPaymentById (updatePaymentRazorpayOrderId db pid rid) x = getPaymentById db x :=
  find?_id_map_ne db.payments pid (fun p => { p with razorpayOrderId := rid })
    (fun _ => rfl) x h

lemma getPaymentById_updateOrderPaymentId (db : DB) (oid : String) (pid : Nat) (x : Nat) :
    getPaymentById (updateOrderPaymentId db oid pid) x = getPaymentById db x := rfl

lemma getPaymentById_bumpGateway (db : DB) (c : Nat) (x : Nat) :
    getPaymentById { db with gatewayCreateCalls := c } x = getPaymentById db x := rfl

lemma getPaymentById_appendDB (db : DB) (newP : Payment) (n : Nat) (x : Nat) :
    getPaymentById { db with payments := db.payments ++ [newP], nextPaymentId := n } x =
      (getPaymentById db x).or (if newP._id = x then some newP else none) := by
  unfold getPaymentById
  simp only
  rw [List.find?_append]
  congr 1
  by_cases h : newP._id = x
  · rw [List.find?_cons_of_pos _ (by simpa using h)]
    simp [h]
  · rw [List.find?_cons_of_neg _ (by simpa using h)]
    simp [h]

/-- `createPayment` never disturbs a payment whose id differs from the
fresh id it allocates. -/
lemma createPayment_keeps (params : CreatePaymentParams) (db : DB) (x : Nat)
    (hx : x ≠ db.nextPaymentId) :
    getPaymentById (createPayment params db).2 x = getPaymentById db x := by
  have hne : (newPaymentRow params db.nextPaymentId)._id ≠ x := by
    rw [newPaymentRow_id]
    exact fun hh => hx hh.symm
  have hnone : (if (newPaymentRow params db.nextPaymentId)._id = x
      then some (newPaymentRow params db.nextPaymentId) else none) = (none : Option Payment) :=
    if_neg hne
  simp only [createPayment]
  rw [getPaymentById_updateOrderPaymentId]
  split
  · rw [getPaymentById_markPaymentCompleted_ne _ _ _ _ _ _ hne]
    split
    · rw [getPaymentById_updatePaymentRazorpayOrderId_ne _ _ _ _ hne]
      rw [getPaymentById_appendDB, hnone]
      simp
    · rw [getPaymentById_appendDB, hnone]
      simp
  · split
    · rw [getPaymentById_updatePaymentRazorpayOrderId_ne _ _ _ _ hne]
      rw [getPaymentById_appendDB, hnone]
      simp
    · rw [getPaymentById_appendDB, hnone]
      simp

/-! ## Concrete fixtures used by witnesses and counterexamples -/

/-- A freshly created order, before any payment attempt. -/
def orderW : Order :=
  { _id := "o1", orderNumber := "ON1", userId := none, sessionId := some "s1",
    totalAmount := 100, status := "created", paymentStatus := "pending",
    paymentId := none }

/-- A state holding one new order and no payments. -/
def dbW : DB :=
  { orders := [orderW], payments := [], nextPaymentId := 0, gatewayCreateCalls := 0 }

/-- A failed gateway payment for `orderW`, with no stored checkout URL. -/
def failedPayW : Payment :=
  { _id := 0, orderId := "o1", orderNumber := "ON1", userId := none,
    sessionId := some "s1", provider := "razorpay", amount := 100, method := none,
    status := "failed", razorpayOrderId := some "rzp_1", transactionId := none,
    gatewayTransactionId := none, checkoutId := none, checkoutUrl := none,
    refundAmount := none, refundTransactionId := none, errorCode := none,
    errorMessage := none, failureReason := none }

/-- A state in which `orderW`'s gateway payment has failed. -/
def dbFailedW : DB :=
  { orders := [{ orderW with
                 status := "payment_failed",
                 paymentStatus := "failed",
                 paymentId := some 0 }],
    payments := [failedPayW],
    nextPaymentId := 1,
    gatewayCreateCalls := 1 }

/-! ## Claim theorems -/

/-- C8: `verifyGatewayPayment` fails with `InvalidSignature` (the
`BadRequestError "Invalid payment signature"`) and performs no mutation
whenever the adapter's signature verification returns false; when the
signature is valid but no payment matches the gateway order id, it fails
with `NotFound`, also with no mutation. -/
theorem verifyPath_error_handling (params : VerifyParams) (db : DB) :
    (verifyRazorpayPayment params false db =
      (Except.error (PayError.badRequestError "Invalid payment signature"), db)) ∧
    (getPaymentByRazorpayOrderId db params.razorpayOrderId = none →
      verifyRazorpayPayment params true db =
        (Except.error (PayError.notFoundError "Payment not found"), db)) := by
  constructor
  · rfl
  · intro h
    simp [verifyRazorpayPayment, h]

/-- Witness for C8 at a concrete input: in the one-order, no-payment state
both failure branches behave as stated. -/
theorem verifyPath_error_handling_witness :
    (verifyRazorpayPayment ⟨"o1", "rzp_1", "pay_9", "sig"⟩ false dbW =
      (Except.error (PayError.badRequestError "Invalid payment signature"), dbW)) ∧
    (verifyRazorpayPayment ⟨"o1", "rzp_1", "pay_9", "sig"⟩ true dbW =
      (Except.error (PayError.notFoundError "Payment not found"), dbW)) :=
  ⟨(verifyPath_error_handling ⟨"o1", "rzp_1", "pay_9", "sig"⟩ dbW).1,
   (verifyPath_error_handling ⟨"o1", "rzp_1", "pay_9", "sig"⟩ dbW).2 rfl⟩

/-- C5: if the gateway adapter's create-order call fails during
`initiateGatewayPayment` (the adapter outcome is an error, carrying the raw
transport detail `e`), the resulting state differs from the prior state only
in the adapter-call counter — no payment is created and no order is
changed — and the caller receives the fixed
`InternalServerError "Failed to initiate Razorpay payment"`
(the `GatewayIntegrationFailure` wrapper), independent of `e`. -/
theorem gatewayFailure_atomicity (orderId e : String) (db : DB) (o : Order)
    (ho : getOrderById db orderId = some o)
    (hp : ∀ p, getPaymentByOrderId db orderId = some p → p.razorpayOrderId = none) :
    initiateRazorpayPayment orderId (Except.error e) db =
      (Except.error (PayError.internalServerError "Failed to initiate Razorpay payment"),
       { db with gatewayCreateCalls := db.gatewayCreateCalls + 1 }) := by
  unfold initiateRazorpayPayment
  rw [ho]
  cases hq : getPaymentByOrderId db orderId with
  | none => simp [initiateRazorpayCreate]
  | some p =>
    have hrid := hp p hq
    simp [hrid, initiateRazorpayCreate]

/-- Witness for C5 at a concrete input: a transport failure on the fresh
one-order state leaves orders and payments untouched. -/
theorem gatewayFailure_atomicity_witness :
    initiateRazorpayPayment "o1" (Except.error "ECONNRESET") dbW =
      (Except.error (PayError.internalServerError "Failed to initiate Razorpay payment"),
       { dbW with gatewayCreateCalls := dbW.gatewayCreateCalls + 1 }) :=
  gatewayFailure_atomicity "o1" "ECONNRESET" dbW orderW rfl (fun p hp => by cases hp)

/-- C9: the webhook handlers resolve the payment by exactly one strategy,
chosen by which identifying field the event carries (checkout id if
present, else order number via the order, else transaction id), never
falling through when the chosen strategy finds nothing; if the chosen
strategy does not resolve, both handlers fail with `NotFound` and leave the
state unchanged.  Presence of a field means JavaScript truthiness: present
and non-empty. -/
theorem webhook_lookup_priority (cid onum tid : Option String) (db : DB)
    (sp : SuccessParams) (fp : FailureParams) :
    (truthy cid = true →
      resolvePaymentByEvent cid onum tid db = getPaymentByCheckoutId db (cid.getD "")) ∧
    (truthy cid = false → truthy onum = true →
      resolvePaymentByEvent cid onum tid db =
        (match getOrderByOrderNumber db (onum.getD "") with
         | some order => getPaymentByOrderId db order._id
         | none => none)) ∧
    (truthy cid = false → truthy onum = false → truthy tid = true →
      resolvePaymentByEvent cid onum tid db = getPaymentByTransactionId db (tid.getD "")) ∧
    (truthy cid = false → truthy onum = false → truthy tid = false →
      resolvePaymentByEvent cid onum tid db = none) ∧
    (resolvePaymentByEvent sp.checkoutId sp.orderNumber (some sp.transactionId) db = none →
      handlePaymentSuccess sp db =
        (Except.error (PayError.notFoundError "Payment not found"), db)) ∧
    (resolvePaymentByEvent fp.checkoutId fp.orderNumber fp.transactionId db = none →
      handlePaymentFailure fp db =
        (Except.error (PayError.notFoundError "Payment not found"), db)) := by
  refine ⟨?_, ?_, ?_, ?_, ?_, ?_⟩
  · intro h; simp [resolvePaymentByEvent, h]
  · intro h1 h2; simp [resolvePaymentByEvent, h1, h2]
  · intro h1 h2 h3; simp [resolvePaymentByEvent, h1, h2, h3]
  · intro h1 h2 h3; simp [resolvePaymentByEvent, h1, h2, h3]
  · intro h; simp [handlePaymentSuccess, h]
  · intro h; simp [handlePaymentFailure, h]

/-- Witness for C9 at concrete inputs: an event carrying a checkout id uses
only the checkout-id lookup even though it finds nothing there while the
order-number strategy would have succeeded, and the success handler then
fails with `NotFound`. -/
theorem webhook_lookup_priority_witness :
    (resolvePaymentByEvent (some "chk_1") (some "ON1") (some "t1") dbFailedW =
      getPaymentByCheckoutId dbFailedW "chk_1") ∧
    (handlePaymentSuccess
        { checkoutId := some "chk_1", transactionId := "t1",
          gatewayTransactionId := none, orderNumber := some "ON1",
          method := none, amount := none } dbFailedW =
      (Except.error (PayError.notFoundError "Payment not found"), dbFailedW)) :=
  ⟨(webhook_lookup_priority (some "chk_1") (some "ON1") (some "t1") dbFailedW
      ⟨some "chk_1", "t1", none, some "ON1", none, none⟩
      ⟨none, none, none, none, none, none⟩).1 rfl,
   (webhook_lookup_priority (some "chk_1") (some "ON1") (some "t1") dbFailedW
      ⟨some "chk_1", "t1", none, some "ON1", none, none⟩
      ⟨none, none, none, none, none, none⟩).2.2.2.2.1 (by decide)⟩

/-- C10: when a payment exists, is not completed and stores no checkout
URL, `retryPayment` raises the no-checkout-available error but has already
reset the payment to `pending`: the state on this error branch differs
from the pre-call state whenever the prior status was not `pending`. -/
theorem retry_nonAtomic_failure (orderId : String) (db : DB) (p : Payment)
    (hp : getPaymentByOrderId db orderId = some p)
    (hnc : p.status ≠ "completed") (hurl : p.checkoutUrl = none) :
    retryPayment orderId db =
      (Except.error (PayError.badRequestError "No checkout URL available for retry"),
       updatePaymentStatus db p._id "pending") ∧
    getPaymentByOrderId (updatePaymentStatus db p._id "pending") orderId =
      some { p with status := "pending" } ∧
    (p.status ≠ "pending" →
      (updatePaymentStatus db p._id "pending").payments ≠ db.payments) := by
  have hres : getPaymentByOrderId (updatePaymentStatus db p._id "pending") orderId =
      some { p with status := "pending" } := by
    unfold getPaymentByOrderId updatePaymentStatus setPayment
    simp only
    rw [find?_map_comm _ _ _ (fun a _ => by by_cases h : a._id = p._id <;> simp [h])]
    rw [show db.payments.find? (fun q => decide (q.orderId = orderId)) = some p from hp]
    simp
  refine ⟨?_, hres, ?_⟩
  · unfold retryPayment
    rw [hp]
    simp [hnc, hurl]
  · intro hne heq
    have : getPaymentByOrderId (updatePaymentStatus db p._id "pending") orderId =
        getPaymentByOrderId db orderId := by
      unfold getPaymentByOrderId
      rw [show (updatePaymentStatus db p._id "pending").payments = db.payments from heq]
    rw [hres, hp] at this
    have := congrArg (fun x => (Option.map Payment.status x).getD "?") this
    simp at this
    exact hne this.symm

/-- Payments-side lookups after completing payment `pid` and confirming an
order, expressed over the pre-update state. -/
lemma paymentsLookup_afterComplete (db : DB) (pid : Nat) (txn : String)
    (gw m : Option String) (oid st ps : String) (pred : Payment → Bool)
    (hpt : ∀ a ∈ db.payments,
      pred (if a._id = pid then completedPayment a txn gw m else a) = pred a) :
    (updateOrderStatus (markPaymentCompleted db pid txn gw m) oid st ps).payments.find? pred =
      (db.payments.find? pred).map
        (fun a => if a._id = pid then completedPayment a txn gw m else a) := by
  show (setPayment db.payments pid _).find? pred = _
  unfold setPayment
  exact find?_map_comm _ _ _ hpt

/-- Order-number lookup after completing a payment and confirming an
order, expressed over the pre-update state. -/
lemma orderNumberLookup_afterComplete (db : DB) (pid : Nat) (txn : String)
    (gw m : Option String) (oid st ps x : String) :
    getOrderByOrderNumber (updateOrderStatus (markPaymentCompleted db pid txn gw m) oid st ps) x =
      (getOrderByOrderNumber db x).map
        (fun o => if o._id = oid then { o with status := st, paymentStatus := ps } else o) := by
  unfold getOrderByOrderNumber updateOrderStatus setOrder
  simp only
  exact find?_map_comm _ _ _ (fun o _ => by by_cases h : o._id = oid <;> simp [h])

/-- The event-resolution cascade is stable under completing the resolved
payment and confirming its order: rerunning the same event's resolution
finds the completed record. -/
lemma resolve_after_complete (cid onum : Option String) (tid : String) (db : DB)
    (q : Payment)
    (hids : ∀ a ∈ db.payments, ∀ b ∈ db.payments, a._id = b._id → a = b)
    (gw m : Option String)
    (hres : resolvePaymentByEvent cid onum (some tid) db = some q) :
    resolvePaymentByEvent cid onum (some tid)
      (updateOrderStatus (markPaymentCompleted db q._id tid gw m)
        q.orderId "confirmed" "completed") =
      some (completedPayment q tid gw m) := by
  have hqmem : q ∈ db.payments := resolve_mem hres
  by_cases hc : truthy cid
  · unfold resolvePaymentByEvent at hres ⊢
    rw [if_pos hc] at hres ⊢
    unfold getPaymentByCheckoutId at hres ⊢
    rw [paymentsLookup_afterComplete db q._id tid gw m q.orderId "confirmed" "completed" _
      (fun a ha => by
        by_cases h : a._id = q._id
        · have haq : a = q := hids a ha q hqmem h
          subst haq
          simp [h, completedPayment_checkoutId]
        · simp [h])]
    rw [hres]
    simp
  · by_cases ho : truthy onum
    · unfold resolvePaymentByEvent at hres ⊢
      rw [if_neg hc, if_pos ho] at hres ⊢
      cases horder : getOrderByOrderNumber db (onum.getD "") with
      | none => rw [horder] at hres; cases hres
      | some order =>
        rw [horder] at hres
        have hres' : db.payments.find? (fun p => decide (p.orderId = order._id)) = some q :=
          hres
        rw [orderNumberLookup_afterComplete, horder]
        simp only [Option.map_some']
        have hOid :
            ((if order._id = q.orderId then
              ({ order with status := "confirmed", paymentStatus := "completed" } : Order)
             else order))._id = order._id := by
          split <;> rfl
        rw [hOid]
        unfold getPaymentByOrderId
        rw [paymentsLookup_afterComplete db q._id tid gw m q.orderId "confirmed" "completed" _
          (fun a ha => by
            by_cases h : a._id = q._id
            · have haq : a = q := hids a ha q hqmem h
              simp [h, haq, completedPayment_orderId]
            · simp [h])]
        rw [hres']
        simp
    · by_cases ht : truthy (some tid)
      · unfold resolvePaymentByEvent at hres ⊢
        rw [if_neg hc, if_neg ho, if_pos ht] at hres ⊢
        have hqt : q.transactionId = some ((some tid).getD "") := by
          have := List.find?_some
            (show db.payments.find?
              (fun p => decide (p.transactionId = some ((some tid).getD ""))) = some q from hres)
          simpa using this
        unfold getPaymentByTransactionId at hres ⊢
        rw [paymentsLookup_afterComplete db q._id tid gw m q.orderId "confirmed" "completed" _
          (fun a ha => by
            by_cases h : a._id = q._id
            · have haq : a = q := hids a ha q hqmem h
              rw [if_pos h, haq, completedPayment_transactionId]
              by_cases hqc : q.status = "completed"
              · rw [if_pos hqc]
              · rw [if_neg hqc, hqt]
                simp
            · simp [h])]
        rw [hres]
        simp
      · unfold resolvePaymentByEvent at hres
        rw [if_neg hc, if_neg ho, if_neg ht] at hres
        cases hres

/-! Stability of a completed payment under every operation other than
`initiateRefund` and `handlePaymentFailure`. -/

lemma completedStable_processCod (db : DB) (p : Payment) (oid : String)
    (hids : ∀ a ∈ db.payments, ∀ b ∈ db.payments, a._id = b._id → a = b)
    (hfresh : ∀ a ∈ db.payments, a._id < db.nextPaymentId)
    (hmem : p ∈ db.payments) :
    getPaymentById (processCodPayment oid db).2 p._id = some p := by
  have hbase : getPaymentById db p._id = some p := getPaymentById_of_mem hids hmem
  have hx : p._id ≠ db.nextPaymentId := Nat.ne_of_lt (hfresh p hmem)
  cases ho : getOrderById db oid with
  | none => simp [processCodPayment, ho, hbase]
  | some o =>
    cases hq : getPaymentByOrderId db oid with
    | some q => simp [processCodPayment, ho, hq, hbase]
    | none =>
      simp only [processCodPayment, ho, hq]
      rw [getPaymentById_updateOrderStatus, createPayment_keeps _ _ _ hx, hbase]

lemma completedStable_initiateGateway (db : DB) (p : Payment) (oid : String)
    (res : Except String String)
    (hids : ∀ a ∈ db.payments, ∀ b ∈ db.payments, a._id = b._id → a = b)
    (hfresh : ∀ a ∈ db.payments, a._id < db.nextPaymentId)
    (hmem : p ∈ db.payments) :
    getPaymentById (initiateRazorpayPayment oid res db).2 p._id = some p := by
  have hbase : getPaymentById db p._id = some p := getPaymentById_of_mem hids hmem
  have hx : p._id ≠ db.nextPaymentId := Nat.ne_of_lt (hfresh p hmem)
  cases ho : getOrderById db oid with
  | none => simp [initiateRazorpayPayment, ho, hbase]
  | some o =>
    have hcreate : getPaymentById (initiateRazorpayCreate o res db).2 p._id = some p := by
      cases res with
      | error e =>
        simp only [initiateRazorpayCreate]
        exact hbase
      | ok rid =>
        simp only [initiateRazorpayCreate]
        rw [getPaymentById_updateOrderStatus, createPayment_keeps]
        · exact hbase
        · exact hx
    cases hq : getPaymentByOrderId db oid with
    | none =>
      simp only [initiateRazorpayPayment, ho, hq]
      exact hcreate
    | some q =>
      cases hrz : q.razorpayOrderId with
      | some rid => simp [initiateRazorpayPayment, ho, hq, hrz, hbase]
      | none =>
        simp only [initiateRazorpayPayment, ho, hq, hrz]
        exact hcreate

lemma completedStable_verify (db : DB) (p : Payment) (params : VerifyParams) (sv : Bool)
    (hids : ∀ a ∈ db.payments, ∀ b ∈ db.payments, a._id = b._id → a = b)
    (hmem : p ∈ db.payments) (hc : p.status = "completed") :
    getPaymentById (verifyRazorpayPayment params sv db).2 p._id = some p := by
  have hbase : getPaymentById db p._id = some p := getPaymentById_of_mem hids hmem
  cases sv with
  | false => simp [verifyRazorpayPayment, hbase]
  | true =>
    cases hq : getPaymentByRazorpayOrderId db params.razorpayOrderId with
    | none => simp [verifyRazorpayPayment, hq, hbase]
    | some q =>
      by_cases hqs : q.status = "completed"
      · simp [verifyRazorpayPayment, hq, hqs, hbase]
      · have hqmem : q ∈ db.payments := (getPaymentByRazorpayOrderId_some hq).1
        have hne : q._id ≠ p._id := fun hh => hqs (by rw [hids q hqmem p hmem hh, hc])
        simp only [verifyRazorpayPayment, hq, Bool.not_true, if_neg hqs]
        simp only [Bool.false_eq_true, if_false]
        rw [getPaymentById_updateOrderStatus,
          getPaymentById_markPaymentCompleted_ne _ _ _ _ _ _ hne]
        exact hbase

lemma completedStable_success (db : DB) (p : Payment) (params : SuccessParams)
    (hids : ∀ a ∈ db.payments, ∀ b ∈ db.payments, a._id = b._id → a = b)
    (hmem : p ∈ db.payments) (hc : p.status = "completed") :
    getPaymentById (handlePaymentSuccess params db).2 p._id = some p := by
  have hbase : getPaymentById db p._id = some p := getPaymentById_of_mem hids hmem
  cases hres : resolvePaymentByEvent params.checkoutId params.orderNumber
      (some params.transactionId) db with
  | none => simp [handlePaymentSuccess, hres, hbase]
  | some q =>
    by_cases hqs : q.status = "completed"
    · simp [handlePaymentSuccess, hres, hqs, hbase]
    · have hqmem : q ∈ db.payments := resolve_mem hres
      have hne : q._id ≠ p._id := fun hh => hqs (by rw [hids q hqmem p hmem hh, hc])
      simp only [handlePaymentSuccess, hres, if_neg hqs]
      rw [getPaymentById_updateOrderStatus,
        getPaymentById_markPaymentCompleted_ne _ _ _ _ _ _ hne]
      exact hbase

lemma completedStable_retry (db : DB) (p : Payment) (oid : String)
    (hids : ∀ a ∈ db.payments, ∀ b ∈ db.payments, a._id = b._id → a = b)
    (hmem : p ∈ db.payments) (hc : p.status = "completed") :
    getPaymentById (retryPayment oid db).2 p._id = some p := by
  have hbase : getPaymentById db p._id = some p := getPaymentById_of_mem hids hmem
  cases hq : getPaymentByOrderId db oid with
  | none => simp [retryPayment, hq, hbase]
  | some q =>
    by_cases hqs : q.status = "completed"
    · simp [retryPayment, hq, hqs, hbase]
    · have hqmem : q ∈ db.payments := (getPaymentByOrderId_some hq).1
      have hne : q._id ≠ p._id := fun hh => hqs (by rw [hids q hqmem p hmem hh, hc])
      cases hurl : q.checkoutUrl with
      | some url =>
        simp only [retryPayment, hq, if_neg hqs, hurl]
        rw [getPaymentById_updatePaymentStatus_ne _ _ _ _ hne]
        exact hbase
      | none =>
        simp only [retryPayment, hq, if_neg hqs, hurl]
        rw [getPaymentById_updatePaymentStatus_ne _ _ _ _ hne]
        exact hbase

/-- The operations that never change a completed payment's status:
everything except `handlePaymentFailure` and `initiateRefund`. -/
def keepsCompleted : Op → Bool
  | Op.processCod _ => true
  | Op.initiateGateway _ _ => true
  | Op.verifyGateway _ _ => true
  | Op.successEvent _ => true
  | Op.retry _ => true
  | Op.failureEvent _ => false
  | Op.refund _ => false

/-! ## Preservation of the well-formed-state invariant (`GoodDB`) -/

/-- The state shape produced by `createPayment` in the COD flow. -/
lemma createPayment_cod_state (params : CreatePaymentParams) (db : DB)
    (hrz : truthy params.razorpayOrderId = false)
    (hst : params.status = some "completed")
    (hfr : ∀ a ∈ db.payments, a._id < db.nextPaymentId) :
    (createPayment params db).2.payments =
      db.payments ++ [completedPayment (newPaymentRow params db.nextPaymentId)
        ("cod_" ++ toString db.nextPaymentId) none (some "cod")] ∧
    (createPayment params db).2.orders =
      setOrder db.orders params.orderId
        (fun o => { o with paymentId := some db.nextPaymentId }) ∧
    (createPayment params db).2.nextPaymentId = db.nextPaymentId + 1 := by
  simp only [createPayment, hrz, hst, newPaymentRow_id, Bool.false_eq_true, if_false,
    if_true, reduceIte]
  refine ⟨?_, rfl, rfl⟩
  show setPayment (db.payments ++ [newPaymentRow params db.nextPaymentId])
      db.nextPaymentId _ = _
  rw [setPayment_append_fresh (newPaymentRow_id params db.nextPaymentId)
    (fun q hq => Nat.ne_of_lt (hfr q hq))]

/-- The state shape produced by `createPayment` in the gateway flow (no
immediate completion). -/
lemma createPayment_gateway_state (params : CreatePaymentParams) (db : DB)
    (hst : params.status ≠ some "completed")
    (hfr : ∀ a ∈ db.payments, a._id < db.nextPaymentId) :
    ∃ newP : Payment,
      (createPayment params db).2.payments = db.payments ++ [newP] ∧
      newP._id = db.nextPaymentId ∧
      newP.orderId = params.orderId ∧
      newP.status = "pending" ∧
      (createPayment params db).2.orders =
        setOrder db.orders params.orderId
          (fun o => { o with paymentId := some db.nextPaymentId }) ∧
      (createPayment params db).2.nextPaymentId = db.nextPaymentId + 1 := by
  by_cases hrz : truthy params.razorpayOrderId
  · refine ⟨{ newPaymentRow params db.nextPaymentId with
        razorpayOrderId := params.razorpayOrderId }, ?_, rfl, rfl, rfl, ?_, ?_⟩
    · simp only [createPayment, hrz, hst, newPaymentRow_id, if_true, if_false, reduceIte]
      show setPayment (db.payments ++ [newPaymentRow params db.nextPaymentId])
          db.nextPaymentId _ = _
      rw [setPayment_append_fresh (newPaymentRow_id params db.nextPaymentId)
        (fun q hq => Nat.ne_of_lt (hfr q hq))]
      simp [newPaymentRow_id]
    · simp only [createPayment, hrz, hst, newPaymentRow_id, if_true, if_false, reduceIte]
      rfl
    · simp only [createPayment, hrz, hst, newPaymentRow_id, if_true, if_false, reduceIte]
      rfl
  · refine ⟨newPaymentRow params db.nextPaymentId, ?_, rfl, rfl, rfl, ?_, ?_⟩
    · simp only [createPayment, hrz, hst, newPaymentRow_id, Bool.false_eq_true,
        if_false, reduceIte]
      rfl
    · simp only [createPayment, hrz, hst, newPaymentRow_id, Bool.false_eq_true,
        if_false, reduceIte]
      rfl
    · simp only [createPayment, hrz, hst, newPaymentRow_id, Bool.false_eq_true,
        if_false, reduceIte]
      rfl

lemma goodDB_gwBump (db : DB) (c : Nat) (hg : GoodDB db) :
    GoodDB { db with gatewayCreateCalls := c } := hg

/-- Core preservation lemma for the update-shaped operations: one payment
`p₀` is transformed in place (by `markCompleted`, `markFailed` or the
refund write) and its order is set to a matching status pair. -/
lemma goodDB_update (db db' : DB) (p₀ : Payment) (f : Payment → Payment)
    (g : Order → Order) (st ps : String)
    (hg : GoodDB db) (hp₀ : p₀ ∈ db.payments)
    (hpay : db'.payments = setPayment db.payments p₀._id f)
    (hord : db'.orders = setOrder db.orders p₀.orderId g)
    (hnext : db'.nextPaymentId = db.nextPaymentId)
    (hf_id : ∀ q, (f q)._id = q._id)
    (hf_ord : ∀ q, (f q).orderId = q.orderId)
    (hg_id : ∀ o, (g o)._id = o._id)
    (hg_st : ∀ o, (g o).status = st)
    (hg_ps : ∀ o, (g o).paymentStatus = ps)
    (hcons : ((f p₀).status = "completed" ↔ (st = "confirmed" ∧ ps = "completed")) ∧
             ((f p₀).status = "failed" → st = "payment_failed") ∧
             ((f p₀).status = "refunded" → st = "refunded")) :
    GoodDB db' := by
  obtain ⟨hinv, hone, huid, hfr⟩ := hg
  refine ⟨?_, ?_, ?_, ?_⟩
  · intro p' hp' o' ho' heq
    rw [hpay] at hp'
    rw [hord] at ho'
    obtain ⟨p, hpmem, hpe⟩ := mem_setPayment hp'
    obtain ⟨o, homem, hoe⟩ := mem_setOrder ho'
    have ho'id : o'._id = o._id := by
      rw [hoe]; split
      · exact hg_id o
      · rfl
    by_cases hpid : p._id = p₀._id
    · have hpp : p = p₀ := huid p hpmem p₀ hp₀ hpid
      have hp'f : p' = f p₀ := by rw [hpe, hpp, if_pos rfl]
      have hoid : o._id = p₀.orderId := by rw [← ho'id, ← heq, hp'f, hf_ord]
      have ho'g : o' = g o := by rw [hoe, if_pos hoid]
      refine ⟨?_, ?_, ?_⟩
      · rw [hp'f, ho'g, hg_st, hg_ps]
        exact hcons.1
      · intro hf'
        rw [ho'g, hg_st]
        exact hcons.2.1 (by rw [← hp'f]; exact hf')
      · intro hf'
        rw [ho'g, hg_st]
        exact hcons.2.2 (by rw [← hp'f]; exact hf')
    · have hp'p : p' = p := by rw [hpe, if_neg hpid]
      have hpo : p.orderId ≠ p₀.orderId := fun hh =>
        hpid (congrArg Payment._id (hone p hpmem p₀ hp₀ hh))
      have hoo : o._id ≠ p₀.orderId := by rw [← ho'id, ← heq, hp'p]; exact hpo
      have ho'o : o' = o := by rw [hoe, if_neg hoo]
      have hpoid : p.orderId = o._id := by rw [← hp'p, heq, ho'o]
      rw [hp'p, ho'o]
      exact hinv p hpmem o homem hpoid
  · intro p' hp' q' hq' heq
    rw [hpay] at hp' hq'
    obtain ⟨p, hpm, hpe⟩ := mem_setPayment hp'
    obtain ⟨q, hqm, hqe⟩ := mem_setPayment hq'
    have h1 : p'.orderId = p.orderId := by
      rw [hpe]; split
      · exact hf_ord p
      · rfl
    have h2 : q'.orderId = q.orderId := by
      rw [hqe]; split
      · exact hf_ord q
      · rfl
    have hpq : p = q := hone p hpm q hqm (by rw [← h1, ← h2, heq])
    rw [hpe, hqe, hpq]
  · intro p' hp' q' hq' heq
    rw [hpay] at hp' hq'
    obtain ⟨p, hpm, hpe⟩ := mem_setPayment hp'
    obtain ⟨q, hqm, hqe⟩ := mem_setPayment hq'
    have h1 : p'._id = p._id := by
      rw [hpe]; split
      · exact hf_id p
      · rfl
    have h2 : q'._id = q._id := by
      rw [hqe]; split
      · exact hf_id q
      · rfl
    have hpq : p = q := huid p hpm q hqm (by rw [← h1, ← h2, heq])
    rw [hpe, hqe, hpq]
  · intro p' hp'
    rw [hpay] at hp'
    obtain ⟨p, hpm, hpe⟩ := mem_setPayment hp'
    have h1 : p'._id = p._id := by
      rw [hpe]; split
      · exact hf_id p
      · rfl
    rw [h1, hnext]
    exact hfr p hpm

/-- Preservation for `retryPayment`'s reset: one non-completed payment is
reset to `pending`, orders untouched. -/
lemma goodDB_reset (db db' : DB) (p₀ : Payment)
    (hg : GoodDB db) (hp₀ : p₀ ∈ db.payments) (hnc : p₀.status ≠ "completed")
    (hpay : db'.payments =
      setPayment db.payments p₀._id (fun q => { q with status := "pending" }))
    (hord : db'.orders = db.orders)
    (hnext : db'.nextPaymentId = db.nextPaymentId) :
    GoodDB db' := by
  obtain ⟨hinv, hone, huid, hfr⟩ := hg
  refine ⟨?_, ?_, ?_, ?_⟩
  · intro p' hp' o' ho' heq
    rw [hpay] at hp'
    rw [hord] at ho'
    obtain ⟨p, hpm, hpe⟩ := mem_setPayment hp'
    by_cases hpid : p._id = p₀._id
    · have hpp : p = p₀ := huid p hpm p₀ hp₀ hpid
      have hp'f : p' = { p₀ with status := "pending" } := by rw [hpe, hpp, if_pos rfl]
      have hpoid : p₀.orderId = o'._id := by rw [← heq, hp'f]
      have horig := hinv p₀ hp₀ o' ho' hpoid
      refine ⟨?_, ?_, ?_⟩
      · constructor
        · intro h
          rw [hp'f] at h
          simp at h
        · intro hrhs
          exact absurd (horig.1.mpr hrhs) hnc
      · intro h
        rw [hp'f] at h
        simp at h
      · intro h
        rw [hp'f] at h
        simp at h
    · have hp'p : p' = p := by rw [hpe, if_neg hpid]
      rw [hp'p]
      exact hinv p hpm o' ho' (by rw [← hp'p]; exact heq)
  · intro p' hp' q' hq' heq
    rw [hpay] at hp' hq'
    obtain ⟨p, hpm, hpe⟩ := mem_setPayment hp'
    obtain ⟨q, hqm, hqe⟩ := mem_setPayment hq'
    have h1 : p'.orderId = p.orderId := by
      rw [hpe]; split <;> rfl
    have h2 : q'.orderId = q.orderId := by
      rw [hqe]; split <;> rfl
    have hpq : p = q := hone p hpm q hqm (by rw [← h1, ← h2, heq])
    rw [hpe, hqe, hpq]
  · intro p' hp' q' hq' heq
    rw [hpay] at hp' hq'
    obtain ⟨p, hpm, hpe⟩ := mem_setPayment hp'
    obtain ⟨q, hqm, hqe⟩ := mem_setPayment hq'
    have h1 : p'._id = p._id := by
      rw [hpe]; split <;> rfl
    have h2 : q'._id = q._id := by
      rw [hqe]; split <;> rfl
    have hpq : p = q := huid p hpm q hqm (by rw [← h1, ← h2, heq])
    rw [hpe, hqe, hpq]
  · intro p' hp'
    rw [hpay] at hp'
    obtain ⟨p, hpm, hpe⟩ := mem_setPayment hp'
    have h1 : p'._id = p._id := by
      rw [hpe]; split <;> rfl
    rw [h1, hnext]
    exact hfr p hpm

/-- Preservation for the create-shaped operations (`processCodPayment`,
the gateway create path): a fresh payment for an order with no existing
payment is appended, and that order's status pair is set to match. -/
lemma goodDB_create (db db' : DB) (newP : Payment) (oid st ps : String)
    (g : Order → Order)
    (hg : GoodDB db)
    (hpay : db'.payments = db.payments ++ [newP])
    (hord : db'.orders = db.orders.map (fun o => if o._id = oid then g o else o))
    (hnext : db'.nextPaymentId = db.nextPaymentId + 1)
    (hnew_id : newP._id = db.nextPaymentId)
    (hnew_ord : newP.orderId = oid)
    (hno : ∀ q ∈ db.payments, q.orderId ≠ oid)
    (hg_id : ∀ o, (g o)._id = o._id)
    (hg_st : ∀ o, (g o).status = st)
    (hg_ps : ∀ o, (g o).paymentStatus = ps)
    (hcons : (newP.status = "completed" ↔ (st = "confirmed" ∧ ps = "completed")) ∧
             (newP.status = "failed" → st = "payment_failed") ∧
             (newP.status = "refunded" → st = "refunded")) :
    GoodDB db' := by
  obtain ⟨hinv, hone, huid, hfr⟩ := hg
  refine ⟨?_, ?_, ?_, ?_⟩
  · intro p' hp' o' ho' heq
    rw [hpay] at hp'
    rw [hord] at ho'
    obtain ⟨o, homem, hoe⟩ := List.mem_map.mp ho'
    have ho'id : o'._id = o._id := by
      rw [← hoe]; split
      · exact hg_id o
      · rfl
    rcases List.mem_append.mp hp' with hpm | hpm
    · have hpo : p'.orderId ≠ oid := hno p' hpm
      have hoo : ¬ o._id = oid := by rw [← ho'id, ← heq]; exact hpo
      have ho'o : o' = o := by rw [← hoe, if_neg hoo]
      rw [ho'o]
      exact hinv p' hpm o homem (heq.trans ho'id)
    · have hp'new : p' = newP := List.mem_singleton.mp hpm
      have hoo : o._id = oid := by rw [← ho'id, ← heq, hp'new, hnew_ord]
      have ho'g : o' = g o := by rw [← hoe, if_pos hoo]
      rw [hp'new, ho'g]
      refine ⟨?_, ?_, ?_⟩
      · rw [hg_st, hg_ps]
        exact hcons.1
      · intro h
        rw [hg_st]
        exact hcons.2.1 h
      · intro h
        rw [hg_st]
        exact hcons.2.2 h
  · intro p' hp' q' hq' heq
    rw [hpay] at hp' hq'
    rcases List.mem_append.mp hp' with hpm | hpm <;>
      rcases List.mem_append.mp hq' with hqm | hqm
    · exact hone p' hpm q' hqm heq
    · exact absurd (by rw [heq, List.mem_singleton.mp hqm, hnew_ord]) (hno p' hpm)
    · exact absurd (by rw [← heq, List.mem_singleton.mp hpm, hnew_ord]) (hno q' hqm)
    · rw [List.mem_singleton.mp hpm, List.mem_singleton.mp hqm]
  · intro p' hp' q' hq' heq
    rw [hpay] at hp' hq'
    rcases List.mem_append.mp hp' with hpm | hpm <;>
      rcases List.mem_append.mp hq' with hqm | hqm
    · exact huid p' hpm q' hqm heq
    · have h1 := hfr p' hpm
      rw [heq, List.mem_singleton.mp hqm, hnew_id] at h1
      exact absurd h1 (lt_irrefl _)
    · have h1 := hfr q' hqm
      rw [← heq, List.mem_singleton.mp hpm, hnew_id] at h1
      exact absurd h1 (lt_irrefl _)
    · rw [List.mem_singleton.mp hpm, List.mem_singleton.mp hqm]
  · intro p' hp'
    rw [hpay] at hp'
    rw [hnext]
    rcases List.mem_append.mp hp' with hpm | hpm
    · exact Nat.lt_succ_of_lt (hfr p' hpm)
    · rw [List.mem_singleton.mp hpm, hnew_id]
      exact Nat.lt_succ_self _

lemma goodDB_step_processCod (db : DB) (oid : String) (hg : GoodDB db) :
    GoodDB (processCodPayment oid db).2 := by
  cases ho : getOrderById db oid with
  | none =>
    simp only [processCodPayment, ho]
    exact hg
  | some o =>
    cases hq : getPaymentByOrderId db oid with
    | some q =>
      simp only [processCodPayment, ho, hq]
      exact hg
    | none =>
      obtain ⟨homem, hoid⟩ := getOrderById_some ho
      have hno : ∀ r ∈ db.payments, r.orderId ≠ o._id := by
        intro r hr
        rw [hoid]
        simpa using List.find?_eq_none.mp hq r hr
      simp only [processCodPayment, ho, hq]
      set P : CreatePaymentParams :=
        { orderId := o._id, orderNumber := o.orderNumber, userId := o.userId,
          sessionId := o.sessionId, provider := "cod", amount := o.totalAmount,
          method := some "cod", status := some "completed", razorpayOrderId := none }
        with hP
      obtain ⟨hpay, hord, hnext⟩ := createPayment_cod_state P db rfl rfl hg.2.2.2
      apply goodDB_create db _
        (completedPayment (newPaymentRow P db.nextPaymentId)
          ("cod_" ++ toString db.nextPaymentId) none (some "cod"))
        o._id "confirmed" "completed"
        (fun ord => { ord with
          paymentId := some db.nextPaymentId,
          status := "confirmed",
          paymentStatus := "completed" }) hg
      · exact hpay
      · show setOrder ((createPayment P db).2.orders) o._id _ = _
        rw [hord]
        exact setOrder_setOrder (fun _ => rfl)
      · exact hnext
      · rw [completedPayment_id, newPaymentRow_id]
      · rw [completedPayment_orderId, newPaymentRow_orderId]
      · exact hno
      · exact fun _ => rfl
      · exact fun _ => rfl
      · exact fun _ => rfl
      · refine ⟨?_, ?_, ?_⟩ <;> simp [completedPayment_status]

lemma goodDB_step_initiateGateway (db : DB) (oid : String) (res : Except String String)
    (hg : GoodDB db)
    (hok : okOp db (Op.initiateGateway oid res) = true) :
    GoodDB (initiateRazorpayPayment oid res db).2 := by
  cases ho : getOrderById db oid with
  | none =>
    simp only [initiateRazorpayPayment, ho]
    exact hg
  | some o =>
    cases hq : getPaymentByOrderId db oid with
    | some q =>
      have hrz : q.razorpayOrderId.isSome = true := by
        simpa only [okOp, hq] using hok
      obtain ⟨rid, hrid⟩ := Option.isSome_iff_exists.mp hrz
      simp only [initiateRazorpayPayment, ho, hq, hrid]
      exact hg
    | none =>
      obtain ⟨homem, hoid⟩ := getOrderById_some ho
      have hno : ∀ r ∈ db.payments, r.orderId ≠ o._id := by
        intro r hr
        rw [hoid]
        simpa using List.find?_eq_none.mp hq r hr
      simp only [initiateRazorpayPayment, ho, hq]
      cases res with
      | error e =>
        simp only [initiateRazorpayCreate]
        exact goodDB_gwBump db _ hg
      | ok rid =>
        simp only [initiateRazorpayCreate]
        set dbg : DB := { db with gatewayCreateCalls := db.gatewayCreateCalls + 1 }
          with hdbg
        set P : CreatePaymentParams :=
          { orderId := o._id, orderNumber := o.orderNumber, userId := o.userId,
            sessionId := o.sessionId, provider := "razorpay", amount := o.totalAmount,
            method := none, status := none, razorpayOrderId := some rid }
          with hP
        have hgg : GoodDB dbg := goodDB_gwBump db _ hg
        obtain ⟨newP, hpay, hid, hordid, hstp, hords, hnext⟩ :=
          createPayment_gateway_state P dbg (by rw [hP]; simp) hgg.2.2.2
        apply goodDB_create dbg _ newP o._id "payment_pending" "pending"
          (fun ord => { ord with
            paymentId := some dbg.nextPaymentId,
            status := "payment_pending",
            paymentStatus := "pending" }) hgg
        · exact hpay
        · show setOrder ((createPayment P dbg).2.orders) o._id _ = _
          rw [hords]
          exact setOrder_setOrder (fun _ => rfl)
        · exact hnext
        · exact hid
        · exact hordid
        · exact hno
        · exact fun _ => rfl
        · exact fun _ => rfl
        · exact fun _ => rfl
        · refine ⟨?_, ?_, ?_⟩ <;> simp [hstp]

lemma goodDB_step_verify (db : DB) (params : VerifyParams) (sv : Bool)
    (hg : GoodDB db) : GoodDB (verifyRazorpayPayment params sv db).2 := by
  cases sv with
  | false => exact hg
  | true =>
    cases hq : getPaymentByRazorpayOrderId db params.razorpayOrderId with
    | none =>
      simp only [verifyRazorpayPayment, hq]
      exact hg
    | some q =>
      by_cases hqs : q.status = "completed"
      · simp [verifyRazorpayPayment, hq, hqs]
        exact hg
      · have hrun : (verifyRazorpayPayment params true db).2 =
            updateOrderStatus (markPaymentCompleted db q._id params.razorpayPaymentId
              (some params.razorpayOrderId) (some "razorpay"))
              q.orderId "confirmed" "completed" := by
          simp [verifyRazorpayPayment, hq, hqs]
        rw [hrun]
        apply goodDB_update db _ q
          (fun r => completedPayment r params.razorpayPaymentId
            (some params.razorpayOrderId) (some "razorpay"))
          (fun o => { o with status := "confirmed", paymentStatus := "completed" })
          "confirmed" "completed" hg (getPaymentByRazorpayOrderId_some hq).1
        · rfl
        · rfl
        · rfl
        · exact fun r => completedPayment_id r _ _ _
        · exact fun r => completedPayment_orderId r _ _ _
        · exact fun _ => rfl
        · exact fun _ => rfl
        · exact fun _ => rfl
        · refine ⟨?_, ?_, ?_⟩ <;> simp [completedPayment_status]

lemma goodDB_step_success (db : DB) (params : SuccessParams) (hg : GoodDB db) :
    GoodDB (handlePaymentSuccess params db).2 := by
  cases hres : resolvePaymentByEvent params.checkoutId params.orderNumber
      (some params.transactionId) db with
  | none =>
    simp only [handlePaymentSuccess, hres]
    exact hg
  | some q =>
    by_cases hqs : q.status = "completed"
    · simp [handlePaymentSuccess, hres, hqs]
      exact hg
    · have hrun : (handlePaymentSuccess params db).2 =
          updateOrderStatus (markPaymentCompleted db q._id params.transactionId
            params.gatewayTransactionId params.method)
            q.orderId "confirmed" "completed" := by
        simp [handlePaymentSuccess, hres, hqs]
      rw [hrun]
      apply goodDB_update db _ q
        (fun r => completedPayment r params.transactionId
          params.gatewayTransactionId params.method)
        (fun o => { o with status := "confirmed", paymentStatus := "completed" })
        "confirmed" "completed" hg (resolve_mem hres)
      · rfl
      · rfl
      · rfl
      · exact fun r => completedPayment_id r _ _ _
      · exact fun r => completedPayment_orderId r _ _ _
      · exact fun _ => rfl
      · exact fun _ => rfl
      · exact fun _ => rfl
      · refine ⟨?_, ?_, ?_⟩ <;> simp [completedPayment_status]

lemma goodDB_step_failure (db : DB) (params : FailureParams) (hg : GoodDB db) :
    GoodDB (handlePaymentFailure params db).2 := by
  cases hres : resolvePaymentByEvent params.checkoutId params.orderNumber
      params.transactionId db with
  | none =>
    simp only [handlePaymentFailure, hres]
    exact hg
  | some q =>
    have hrun : (handlePaymentFailure params db).2 =
        updateOrderStatus (markPaymentFailed db q._id params.errorCode
          params.errorMessage params.failureReason)
          q.orderId "payment_failed" "failed" := by
      simp [handlePaymentFailure, hres]
    rw [hrun]
    apply goodDB_update db _ q
      (fun r => failedPayment r params.errorCode params.errorMessage params.failureReason)
      (fun o => { o with status := "payment_failed", paymentStatus := "failed" })
      "payment_failed" "failed" hg (resolve_mem hres)
    · rfl
    · rfl
    · rfl
    · exact fun _ => rfl
    · exact fun _ => rfl
    · exact fun _ => rfl
    · exact fun _ => rfl
    · exact fun _ => rfl
    · refine ⟨?_, ?_, ?_⟩ <;> simp [failedPayment]

lemma goodDB_step_refund (db : DB) (params : RefundParams) (hg : GoodDB db) :
    GoodDB (initiateRefund params db).2 := by
  cases hp : getPaymentById db params.paymentId with
  | none =>
    simp only [initiateRefund, hp]
    exact hg
  | some q =>
    by_cases hqs : q.status = "completed"
    · by_cases hamt : q.amount < params.refundAmount
      · simp [initiateRefund, hp, hqs, hamt]
        exact hg
      · have hrun : (initiateRefund params db).2 =
            updateOrderStatus (repoInitiateRefund db q._id params.refundAmount
              params.refundTransactionId) q.orderId "refunded" "refunded" := by
          simp [initiateRefund, hp, hqs, hamt]
        rw [hrun]
        apply goodDB_update db _ q
          (fun r => refundedPayment r params.refundAmount params.refundTransactionId)
          (fun o => { o with status := "refunded", paymentStatus := "refunded" })
          "refunded" "refunded" hg (getPaymentById_some hp).1
        · rfl
        · rfl
        · rfl
        · exact fun _ => rfl
        · exact fun _ => rfl
        · exact fun _ => rfl
        · exact fun _ => rfl
        · exact fun _ => rfl
        · refine ⟨?_, ?_, ?_⟩ <;> simp [refundedPayment]
    · simp [initiateRefund, hp, hqs]
      exact hg

lemma goodDB_step_retry (db : DB) (oid : String) (hg : GoodDB db) :
    GoodDB (retryPayment oid db).2 := by
  cases hq : getPaymentByOrderId db oid with
  | none =>
    simp only [retryPayment, hq]
    exact hg
  | some q =>
    by_cases hqs : q.status = "completed"
    · simp [retryPayment, hq, hqs]
      exact hg
    · have hrun : (retryPayment oid db).2 = updatePaymentStatus db q._id "pending" := by
        cases hurl : q.checkoutUrl <;> simp [retryPayment, hq, hqs, hurl]
      rw [hrun]
      exact goodDB_reset db _ q hg (getPaymentByOrderId_some hq).1 hqs rfl rfl rfl

/-- One step of the state machine preserves well-formedness, provided the
gateway-initiation restriction holds at that step. -/
lemma goodDB_applyOp (db : DB) (op : Op) (hg : GoodDB db)
    (hok : okOp db op = true) : GoodDB (applyOp db op) := by
  cases op with
  | processCod oid => exact goodDB_step_processCod db oid hg
  | initiateGateway oid res => exact goodDB_step_initiateGateway db oid res hg hok
  | verifyGateway params sv => exact goodDB_step_verify db params sv hg
  | successEvent params => exact goodDB_step_success db params hg
  | failureEvent params => exact goodDB_step_failure db params hg
  | refund params => exact goodDB_step_refund db params hg
  | retry oid => exact goodDB_step_retry db oid hg

/-- A failure webhook event identifying `orderW` by its order number. -/
def failureEventW : FailureParams :=
  { checkoutId := none, transactionId := none, orderNumber := some "ON1",
    errorCode := some "E1", errorMessage := none, failureReason := none }

/-- A client verification callback for `orderW`'s gateway order. -/
def verifyW : VerifyParams :=
  { orderId := "o1", razorpayOrderId := "rzp_1", razorpayPaymentId := "pay_9",
    razorpaySignature := "sig" }

/-- A completed gateway payment for `orderW`. -/
def completedPayW : Payment :=
  { failedPayW with status := "completed", transactionId := some "pay_9" }

/-- A state in which `orderW` is confirmed with `completedPayW`. -/
def dbCompletedW : DB :=
  { orders := [{ orderW with
                 status := "confirmed",
                 paymentStatus := "completed",
                 paymentId := some 0 }],
    payments := [completedPayW],
    nextPaymentId := 1,
    gatewayCreateCalls := 1 }

/-- C1 counterexample: the cross-entity invariant does not hold after every
sequence of orchestrator operations.  From a well-formed one-order state,
`processCodPayment` then `initiateGatewayPayment` (succeeding remotely)
creates a second payment row for the order and moves the order to
`payment_pending` while the COD payment is still `completed` — violating
"every completed payment's order is confirmed".  (The violating step is
exactly the one outside the intended use: `SafeRun` is false here.) -/
theorem cross_entity_consistency_counterexample :
    GoodDB dbW ∧
    SafeRun dbW [Op.processCod "o1", Op.initiateGateway "o1" (Except.ok "rzp_1")] = false ∧
    ¬ CrossInv (runOps dbW
      [Op.processCod "o1", Op.initiateGateway "o1" (Except.ok "rzp_1")]) := by
  decide

/-- C1 (amended): starting from any well-formed state (consistent ledgers,
unique payment ids below the id counter, at most one payment per order),
after every sequence of orchestrator operations in which
`initiateGatewayPayment` is never invoked on an order that already has a
payment record lacking a gateway order id, the cross-entity invariant
holds: every `completed` payment's order is `confirmed` with paymentStatus
`completed` (and conversely), every `failed` payment's order is
`payment_failed`, and every `refunded` payment's order is `refunded`. -/
theorem cross_entity_consistency_amended (db : DB) (ops : List Op)
    (hg : GoodDB db) (hs : SafeRun db ops = true) :
    CrossInv (runOps db ops) := by
  induction ops generalizing db with
  | nil => exact hg.1
  | cons op rest ih =>
    simp only [SafeRun, Bool.and_eq_true] at hs
    exact ih (applyOp db op) (goodDB_applyOp db op hg hs.1) hs.2

/-- Witness for the amended C1 at a concrete input: the COD flow followed
by a failure webhook, a retry and a gateway re-verification is a safe run
from the fresh one-order state, and the invariant holds afterwards. -/
theorem cross_entity_consistency_amended_witness :
    GoodDB dbW ∧
    SafeRun dbW [Op.processCod "o1", Op.failureEvent failureEventW, Op.retry "o1"] = true ∧
    CrossInv (runOps dbW
      [Op.processCod "o1", Op.failureEvent failureEventW, Op.retry "o1"]) :=
  ⟨by decide, by decide,
   cross_entity_consistency_amended dbW
     [Op.processCod "o1", Op.failureEvent failureEventW, Op.retry "o1"]
     (by decide) (by decide)⟩

/-- C2 counterexample: completed and refunded are not sink states.  After a
COD completion, a failure webhook moves the completed payment to `failed`;
and after a refund, `retryPayment` moves the refunded payment back to
`pending`.  This refutes both "handlePaymentFailure never moves a completed
payment to failed" and "retryPayment never moves a refunded payment back to
pending". -/
theorem payment_sink_states_counterexample :
    ((runOps dbW [Op.processCod "o1"]).payments.map Payment.status = ["completed"] ∧
     (runOps dbW [Op.processCod "o1", Op.failureEvent failureEventW]).payments.map
       Payment.status = ["failed"]) ∧
    ((runOps dbW [Op.initiateGateway "o1" (Except.ok "rzp_1"), Op.verifyGateway verifyW true,
        Op.refund { paymentId := 0, refundAmount := 50,
                    refundTransactionId := none }]).payments.map
       Payment.status = ["refunded"] ∧
     (runOps dbW [Op.initiateGateway "o1" (Except.ok "rzp_1"), Op.verifyGateway verifyW true,
        Op.refund { paymentId := 0, refundAmount := 50, refundTransactionId := none },
        Op.retry "o1"]).payments.map Payment.status = ["pending"]) := by
  decide

/-- C2 (amended): once a payment is completed, `processCodPayment`,
`initiateGatewayPayment`, `verifyGatewayPayment`, `handlePaymentSuccess`
and `retryPayment` never change it in any way, and `initiateRefund` moves
it to `refunded`; however `handlePaymentFailure` can move a completed
payment to `failed`, and `refunded` is not a sink (`retryPayment` resets a
refunded payment to `pending`), as the counterexample exhibits.  Payment
ids are assumed unique and below the id counter, per the data model. -/
theorem payment_sink_states_amended (db : DB) (p : Payment)
    (hids : ∀ a ∈ db.payments, ∀ b ∈ db.payments, a._id = b._id → a = b)
    (hfresh : ∀ a ∈ db.payments, a._id < db.nextPaymentId)
    (hmem : p ∈ db.payments) (hc : p.status = "completed") :
    (∀ op, keepsCompleted op = true →
      getPaymentById (applyOp db op) p._id = some p) ∧
    (∀ amt rtx, amt ≤ p.amount →
      getPaymentById (applyOp db (Op.refund ⟨p._id, amt, rtx⟩)) p._id =
        some (refundedPayment p amt rtx)) := by
  have hbase : getPaymentById db p._id = some p := getPaymentById_of_mem hids hmem
  constructor
  · intro op hop
    cases op with
    | processCod oid => exact completedStable_processCod db p oid hids hfresh hmem
    | initiateGateway oid res =>
      exact completedStable_initiateGateway db p oid res hids hfresh hmem
    | verifyGateway params sv => exact completedStable_verify db p params sv hids hmem hc
    | successEvent params => exact completedStable_success db p params hids hmem hc
    | retry oid => exact completedStable_retry db p oid hids hmem hc
    | failureEvent params => cases hop
    | refund params => cases hop
  · intro amt rtx hle
    have hnl : ¬ p.amount < amt := Nat.not_lt.mpr hle
    show getPaymentById (initiateRefund ⟨p._id, amt, rtx⟩ db).2 p._id = _
    simp only [initiateRefund, hbase, hc]
    simp only [ne_eq, not_true_eq_false, if_false, hnl]
    rw [getPaymentById_updateOrderStatus, getPaymentById_repoInitiateRefund, hbase]
    simp

/-- Witness for the amended C2 at a concrete input: on the
confirmed-order state, a retry leaves the completed payment untouched and
a refund of 50 moves it to `refunded`. -/
theorem payment_sink_states_amended_witness :
    getPaymentById (applyOp dbCompletedW (Op.retry "o1")) completedPayW._id =
      some completedPayW ∧
    getPaymentById (applyOp dbCompletedW (Op.refund ⟨completedPayW._id, 50, none⟩))
        completedPayW._id =
      some (refundedPayment completedPayW 50 none) :=
  ⟨(payment_sink_states_amended dbCompletedW completedPayW (by decide) (by decide)
      (by decide) (by decide)).1 (Op.retry "o1") rfl,
   (payment_sink_states_amended dbCompletedW completedPayW (by decide) (by decide)
      (by decide) (by decide)).2 50 none (by decide)⟩

/-- C3: if `handlePaymentSuccess` succeeds, returning payment `p` in state
`db'`, then calling it again with the same event on `db'` returns the same
already-completed payment `p` and the state `db'` unchanged — there is
exactly one completion and one order confirmation, and the order's status
after the second call equals its status after the first.  Ids of payment
records are assumed unique, per the data model. -/
theorem idempotent_completion (params : SuccessParams) (db db' : DB) (p : Payment)
    (hids : ∀ a ∈ db.payments, ∀ b ∈ db.payments, a._id = b._id → a = b)
    (h : handlePaymentSuccess params db = (Except.ok p, db')) :
    handlePaymentSuccess params db' = (Except.ok p, db') ∧ p.status = "completed" := by
  unfold handlePaymentSuccess at h
  cases hres : resolvePaymentByEvent params.checkoutId params.orderNumber
      (some params.transactionId) db with
  | none =>
    rw [hres] at h
    exact absurd (congrArg Prod.fst h) (by simp)
  | some q =>
    rw [hres] at h
    have h' : (if q.status = "completed" then ((Except.ok q : Except PayError Payment), db)
        else (Except.ok (completedPayment q params.transactionId
            params.gatewayTransactionId params.method),
          updateOrderStatus (markPaymentCompleted db q._id params.transactionId
            params.gatewayTransactionId params.method) q.orderId "confirmed" "completed")) =
        (Except.ok p, db') := h
    by_cases hq : q.status = "completed"
    · rw [if_pos hq] at h'
      simp only [Prod.mk.injEq, Except.ok.injEq] at h'
      obtain ⟨hp, hdb'⟩ := h'
      subst hp hdb'
      refine ⟨?_, hq⟩
      simp [handlePaymentSuccess, hres, hq]
    · rw [if_neg hq] at h'
      simp only [Prod.mk.injEq, Except.ok.injEq] at h'
      obtain ⟨hp, hdb'⟩ := h'
      subst hp hdb'
      refine ⟨?_, completedPayment_status _ _ _ _⟩
      unfold handlePaymentSuccess
      rw [resolve_after_complete params.checkoutId params.orderNumber
        params.transactionId db q hids params.gatewayTransactionId params.method hres]
      simp [completedPayment_status]

/-- Witness for C3 at a concrete input: a success webhook carrying the
order number completes the failed payment once; replaying it returns the
same completed payment and the same state. -/
theorem idempotent_completion_witness :
    handlePaymentSuccess
        { checkoutId := none, transactionId := "pay_9", gatewayTransactionId := none,
          orderNumber := some "ON1", method := none, amount := none }
        (handlePaymentSuccess
          { checkoutId := none, transactionId := "pay_9", gatewayTransactionId := none,
            orderNumber := some "ON1", method := none, amount := none } dbFailedW).2 =
      ((handlePaymentSuccess
          { checkoutId := none, transactionId := "pay_9", gatewayTransactionId := none,
            orderNumber := some "ON1", method := none, amount := none } dbFailedW).1,
       (handlePaymentSuccess
          { checkoutId := none, transactionId := "pay_9", gatewayTransactionId := none,
            orderNumber := some "ON1", method := none, amount := none } dbFailedW).2) := by
  have h := idempotent_completion
    { checkoutId := none, transactionId := "pay_9", gatewayTransactionId := none,
      orderNumber := some "ON1", method := none, amount := none }
    dbFailedW
    (handlePaymentSuccess
      { checkoutId := none, transactionId := "pay_9", gatewayTransactionId := none,
        orderNumber := some "ON1", method := none, amount := none } dbFailedW).2
    (completedPayment failedPayW "pay_9" none none)
    (by decide) (by decide)
  rw [h.1]
  rw [show (handlePaymentSuccess
      { checkoutId := none, transactionId := "pay_9", gatewayTransactionId := none,
        orderNumber := some "ON1", method := none, amount := none } dbFailedW).1 =
    Except.ok (completedPayment failedPayW "pay_9" none none) from by decide]

/-- C4: when a payment with a gateway order id already exists,
`initiateGatewayPayment` returns that gateway order id and the checkout
parameters with no state change at all (so no adapter call and no ledger
mutation); and starting from a state with no payment for the order, a
first call (whose adapter call succeeds with a non-empty id `rid`)
returns `rid` and bumps the adapter-call counter once, after which a
second call — whatever its adapter outcome would be — returns the same
checkout parameters and changes nothing, so the adapter is invoked at
most once across the two calls. -/
theorem no_double_remote_order (orderId : String) (db : DB) (o : Order)
    (res2 : Except String String)
    (ho : getOrderById db orderId = some o) :
    (∀ p rid, getPaymentByOrderId db orderId = some p → p.razorpayOrderId = some rid →
      initiateRazorpayPayment orderId res2 db =
        (Except.ok ⟨p._id, rid, razorpayKeyId, o.totalAmount * 100, "INR", o.orderNumber⟩,
         db)) ∧
    (getPaymentByOrderId db orderId = none → ∀ rid, rid ≠ "" →
      ∃ chk : RazorpayCheckout, ∃ db1 : DB,
        initiateRazorpayPayment orderId (Except.ok rid) db = (Except.ok chk, db1) ∧
        chk.razorpayOrderId = rid ∧
        db1.gatewayCreateCalls = db.gatewayCreateCalls + 1 ∧
        initiateRazorpayPayment orderId res2 db1 = (Except.ok chk, db1)) := by
  obtain ⟨homem, hoid⟩ := getOrderById_some ho
  constructor
  · intro p rid hp hrid
    simp [initiateRazorpayPayment, ho, hp, hrid]
  · intro hpn rid hrid
    set n := db.nextPaymentId with hn
    set P2 : CreatePaymentParams :=
      { orderId := o._id, orderNumber := o.orderNumber, userId := o.userId,
        sessionId := o.sessionId, provider := "razorpay", amount := o.totalAmount,
        method := none, status := none, razorpayOrderId := some rid } with hP2
    set dbg : DB := { db with gatewayCreateCalls := db.gatewayCreateCalls + 1 } with hdbg
    set newP := newPaymentRow P2 n with hnewP
    set db1 := updateOrderStatus (updateOrderPaymentId
        (updatePaymentRazorpayOrderId
          { dbg with
            payments := dbg.payments ++ [newP],
            nextPaymentId := n + 1 }
          n (some rid))
        o._id n) o._id "payment_pending" "pending" with hdb1
    have htr : truthy (some rid) = true := by simp [truthy, hrid]
    have hrun1 : initiateRazorpayPayment orderId (Except.ok rid) db =
        (Except.ok ⟨n, rid, razorpayKeyId, o.totalAmount * 100, "INR", o.orderNumber⟩,
         db1) := by
      simp [initiateRazorpayPayment, ho, hpn, initiateRazorpayCreate, createPayment,
        htr, newPaymentRow_id, hP2, hdbg, hdb1, hnewP, hn]
    have hO1 : getOrderById db1 orderId =
        some { o with
               paymentId := some n,
               status := "payment_pending",
               paymentStatus := "pending" } := by
      rw [hdb1, getOrderById_updateOrderStatus, getOrderById_updateOrderPaymentId,
        getOrderById_updatePaymentRazorpayOrderId]
      rw [show getOrderById
            { dbg with
              payments := dbg.payments ++ [newP],
              nextPaymentId := n + 1 } orderId = getOrderById db orderId from rfl]
      rw [ho]
      simp [hoid]
    have hnewPo : newP.orderId = orderId := by
      rw [hnewP, newPaymentRow_orderId, hP2]
      exact hoid
    have hP1 : getPaymentByOrderId db1 orderId =
        some { newP with razorpayOrderId := some rid } := by
      rw [hdb1, getPaymentByOrderId_updateOrderStatus,
        getPaymentByOrderId_updateOrderPaymentId,
        getPaymentByOrderId_updatePaymentRazorpayOrderId,
        getPaymentByOrderId_appendDB]
      rw [show getPaymentByOrderId dbg orderId = getPaymentByOrderId db orderId from rfl,
        hpn]
      simp [hnewPo]
      rw [show newP._id = n from by rw [hnewP, newPaymentRow_id]]
      simp
    refine ⟨⟨n, rid, razorpayKeyId, o.totalAmount * 100, "INR", o.orderNumber⟩, db1,
      hrun1, rfl, ?_, ?_⟩
    · rw [hdb1]; rfl
    · simp [initiateRazorpayPayment, hO1, hP1]
      rw [hnewP, newPaymentRow_id]

/-- Witness for C4 at a concrete input: from the fresh one-order state, a
first gateway initiation returning `rzp_1` and any second call yield the
same gateway order id with exactly one adapter call. -/
theorem no_double_remote_order_witness :
    ∃ chk : RazorpayCheckout, ∃ db1 : DB,
      initiateRazorpayPayment "o1" (Except.ok "rzp_1") dbW = (Except.ok chk, db1) ∧
      chk.razorpayOrderId = "rzp_1" ∧
      db1.gatewayCreateCalls = dbW.gatewayCreateCalls + 1 ∧
      initiateRazorpayPayment "o1" (Except.error "ETIMEDOUT") db1 =
        (Except.ok chk, db1) :=
  (no_double_remote_order "o1" dbW orderW (Except.error "ETIMEDOUT") rfl).2 rfl
    "rzp_1" (by decide)

/-- C6: `processCodPayment` fails with `NotFound` when the order does not
exist and with `DuplicatePayment` (the "Payment already exists for this
order" error) when any payment exists for the order, leaving the state
unchanged (so a second call after a successful first leaves the order
`confirmed`); otherwise it creates a payment with provider `cod`, status
`completed` and transaction id `cod_` + payment id, sets the order to
`confirmed` with paymentStatus `completed`, and performs no gateway call
(the adapter-call counter is unchanged). -/
theorem codFlow_correctness (orderId : String) (db : DB) :
    (getOrderById db orderId = none →
      processCodPayment orderId db =
        (Except.error (PayError.notFoundError "Order not found"), db)) ∧
    (∀ o q, getOrderById db orderId = some o → getPaymentByOrderId db orderId = some q →
      processCodPayment orderId db =
        (Except.error (PayError.badRequestError "Payment already exists for this order"),
         db)) ∧
    (∀ o, getOrderById db orderId = some o → getPaymentByOrderId db orderId = none →
      ∃ cp, getPaymentByOrderId (processCodPayment orderId db).2 orderId = some cp ∧
        cp.provider = "cod" ∧ cp.status = "completed" ∧
        cp.transactionId = some ("cod_" ++ toString cp._id) ∧
        cp.amount = o.totalAmount ∧
        getOrderById (processCodPayment orderId db).2 orderId =
          some { o with
                 paymentId := some cp._id,
                 status := "confirmed",
                 paymentStatus := "completed" } ∧
        (processCodPayment orderId db).2.gatewayCreateCalls = db.gatewayCreateCalls) := by
  refine ⟨?_, ?_, ?_⟩
  · intro h; simp [processCodPayment, h]
  · intro o q ho hq; simp [processCodPayment, ho, hq]
  · intro o ho hpn
    obtain ⟨homem, hoid⟩ := getOrderById_some ho
    set n := db.nextPaymentId with hn
    set P : CreatePaymentParams :=
      { orderId := o._id, orderNumber := o.orderNumber, userId := o.userId,
        sessionId := o.sessionId, provider := "cod", amount := o.totalAmount,
        method := some "cod", status := some "completed", razorpayOrderId := none }
      with hP
    have hrun : (processCodPayment orderId db).2 =
        updateOrderStatus (updateOrderPaymentId (markPaymentCompleted
          { db with
            payments := db.payments ++ [newPaymentRow P n],
            nextPaymentId := n + 1 }
          n ("cod_" ++ toString n) none (some "cod"))
          o._id n) o._id "confirmed" "completed" := by
      simp [processCodPayment, ho, hpn, createPayment, truthy, hP, newPaymentRow_id]
    refine ⟨completedPayment (newPaymentRow P n) ("cod_" ++ toString n) none (some "cod"),
      ?_, ?_, ?_, ?_, ?_, ?_, ?_⟩
    · rw [hrun, getPaymentByOrderId_updateOrderStatus,
        getPaymentByOrderId_updateOrderPaymentId,
        getPaymentByOrderId_markPaymentCompleted, getPaymentByOrderId_appendDB, hpn]
      have hcond : (newPaymentRow P n).orderId = orderId := by
        rw [newPaymentRow_orderId]
        show o._id = orderId
        exact hoid
      simp [hcond, newPaymentRow_id]
    · rw [completedPayment_provider]; rfl
    · exact completedPayment_status _ _ _ _
    · rw [completedPayment_transactionId, completedPayment_id, newPaymentRow_id,
        newPaymentRow_status]
      simp
    · rw [completedPayment_amount]; rfl
    · rw [hrun, getOrderById_updateOrderStatus, getOrderById_updateOrderPaymentId,
        getOrderById_markPaymentCompleted, getOrderById_appendPayments, ho,
        completedPayment_id, newPaymentRow_id]
      simp [hoid]
    · rw [hrun]; rfl

/-- Witness for C6 at a concrete input: the fresh one-order state yields a
completed `cod` payment whose transaction id is `cod_0`, a confirmed
order, and no gateway call. -/
theorem codFlow_correctness_witness :
    ∃ cp, getPaymentByOrderId (processCodPayment "o1" dbW).2 "o1" = some cp ∧
      cp.provider = "cod" ∧ cp.status = "completed" ∧
      cp.transactionId = some ("cod_" ++ toString cp._id) ∧
      cp.amount = orderW.totalAmount ∧
      getOrderById (processCodPayment "o1" dbW).2 "o1" =
        some { orderW with
               paymentId := some cp._id,
               status := "confirmed",
               paymentStatus := "completed" } ∧
      (processCodPayment "o1" dbW).2.gatewayCreateCalls = dbW.gatewayCreateCalls :=
  (codFlow_correctness "o1" dbW).2.2 orderW rfl rfl

/-- C7 counterexample: on a non-completed payment whose amount is exceeded
by the requested refund, `initiateRefund` fails with the invalid-state
error ("Can only refund completed payments"), not the invalid-amount one —
the status check precedes the amount check, refuting "fails with
InvalidAmount whenever refundAmount exceeds the payment's amount". -/
theorem refund_invalidAmount_counterexample :
    failedPayW.amount < 200 ∧
    initiateRefund { paymentId := 0, refundAmount := 200, refundTransactionId := none }
        dbFailedW =
      (Except.error (PayError.badRequestError "Can only refund completed payments"),
       dbFailedW) ∧
    (initiateRefund { paymentId := 0, refundAmount := 200, refundTransactionId := none }
        dbFailedW).1 ≠
      Except.error (PayError.badRequestError "Refund amount cannot exceed payment amount") := by
  decide

/-- C7 (amended): `initiateRefund` fails with `NotFound` when the payment
does not exist, with `InvalidState` when its status is not `completed`
(hence a second refund of a refunded payment is rejected), and with
`InvalidAmount` when it is completed and `refundAmount` exceeds its amount
(the status check runs first), each failure leaving the state unchanged;
otherwise it records the refund on the payment (status `refunded`, amount
and refund transaction id stored) and sets the order to `refunded` with
paymentStatus `refunded`. -/
theorem refund_preconditions_effect (params : RefundParams) (db : DB) :
    (getPaymentById db params.paymentId = none →
      initiateRefund params db =
        (Except.error (PayError.notFoundError "Payment not found"), db)) ∧
    (∀ p, getPaymentById db params.paymentId = some p → p.status ≠ "completed" →
      initiateRefund params db =
        (Except.error (PayError.badRequestError "Can only refund completed payments"), db)) ∧
    (∀ p, getPaymentById db params.paymentId = some p → p.status = "completed" →
      p.amount < params.refundAmount →
      initiateRefund params db =
        (Except.error (PayError.badRequestError "Refund amount cannot exceed payment amount"), db)) ∧
    (∀ p, getPaymentById db params.paymentId = some p → p.status = "completed" →
      params.refundAmount ≤ p.amount →
      (initiateRefund params db).1 =
        Except.ok (refundedPayment p params.refundAmount params.refundTransactionId) ∧
      getPaymentById (initiateRefund params db).2 p._id =
        some (refundedPayment p params.refundAmount params.refundTransactionId) ∧
      (∀ o, getOrderById db p.orderId = some o →
        getOrderById (initiateRefund params db).2 p.orderId =
          some { o with status := "refunded", paymentStatus := "refunded" })) := by
  refine ⟨?_, ?_, ?_, ?_⟩
  · intro h; simp [initiateRefund, h]
  · intro p hp hst; simp [initiateRefund, hp, hst]
  · intro p hp hst hlt
    simp [initiateRefund, hp, hst, hlt]
  · intro p hp hst hle
    obtain ⟨hmem, hid⟩ := getPaymentById_some hp
    have hrun : initiateRefund params db =
        (Except.ok (refundedPayment p params.refundAmount params.refundTransactionId),
         updateOrderStatus
           (repoInitiateRefund db p._id params.refundAmount params.refundTransactionId)
           p.orderId "refunded" "refunded") := by
      simp [initiateRefund, hp, hst, Nat.not_lt.mpr hle]
    refine ⟨by rw [hrun], ?_, ?_⟩
    · rw [hrun]
      rw [getPaymentById_updateOrderStatus, getPaymentById_repoInitiateRefund]
      rw [show getPaymentById db p._id = some p from by rw [hid]; exact hp]
      simp
    · intro o ho
      obtain ⟨homem, hoid⟩ := getOrderById_some ho
      rw [hrun]
      rw [getOrderById_updateOrderStatus]
      rw [show getOrderById
            (repoInitiateRefund db p._id params.refundAmount params.refundTransactionId)
            p.orderId = getOrderById db p.orderId from rfl]
      rw [ho]
      simp [hoid]

/-- Witness for the amended C7 at concrete inputs: all four branches, on
the failed-payment state and on a completed-payment state derived from it. -/
theorem refund_preconditions_effect_witness :
    (initiateRefund { paymentId := 7, refundAmount := 10, refundTransactionId := none }
        dbFailedW =
      (Except.error (PayError.notFoundError "Payment not found"), dbFailedW)) ∧
    (initiateRefund { paymentId := 0, refundAmount := 10, refundTransactionId := none }
        dbFailedW =
      (Except.error (PayError.badRequestError "Can only refund completed payments"),
       dbFailedW)) := by
  constructor
  · exact (refund_preconditions_effect
      { paymentId := 7, refundAmount := 10, refundTransactionId := none } dbFailedW).1
      (by decide)
  · exact (refund_preconditions_effect
      { paymentId := 0, refundAmount := 10, refundTransactionId := none } dbFailedW).2.1
      failedPayW (by decide) (by decide)

/-- Witness for C10 at a concrete input: retrying the failed gateway
payment with no checkout URL errors after resetting it to `pending`,
leaving a state different from the pre-call one. -/
theorem retry_nonAtomic_failure_witness :
    (retryPayment "o1" dbFailedW =
      (Except.error (PayError.badRequestError "No checkout URL available for retry"),
       updatePaymentStatus dbFailedW 0 "pending")) ∧
    (updatePaymentStatus dbFailedW 0 "pending").payments ≠ dbFailedW.payments :=
  ⟨(retry_nonAtomic_failure "o1" dbFailedW failedPayW (by decide) (by decide) rfl).1,
   (retry_nonAtomic_failure "o1" dbFailedW failedPayW (by decide) (by decide) rfl).2.2 (by decide)⟩

end DaadisPay
